import Mathlib

/-!
Verification of the declarative-state / API codecs and CRUD lifecycle logic of the
walkerlabs/terraform-provider-accelbyte repository.

The Go source is shallowly embedded as follows.

* Terraform framework values (`types.String`, `types.Int32`, `types.Bool`,
  `types.List`, `types.Object`) are tri-state: null, unknown, or a known value.
  They are embedded as `TFValue α`.  Accessors (`ValueString`, `ValueStringPointer`,
  `Elements`, `As`, ...) are embedded with the framework's documented semantics:
  `ValueX` returns the Go zero value on null/unknown, `ValueXPointer` returns
  `none` exactly on null, `Elements` returns the empty slice on null/unknown,
  and `Object.As` into a zero-valued model leaves the zero model on null/unknown.
* Go pointer-typed API fields (`*string`, `*int32`, `*bool`) are `Option`s;
  Go slices are `Option (List String)` with `none` modelling a nil slice.
  Dereferencing a possibly-nil pointer (a Go panic when nil) makes the embedded
  function return `Option`, with `none` modelling the panic.
* Go `int32` fields are embedded as `Int` (they are only copied, never subject
  to arithmetic), except the custom-session-function bit-field, embedded as
  `Nat` (its value is an or of the bits 1..32).
-/

/-- Tri-state Terraform attribute value: null, unknown, or a known value
(mirrors `attr.Value` state in terraform-plugin-framework). -/
inductive TFValue (α : Type) where
  | null : TFValue α
  | unknown : TFValue α
  | value : α → TFValue α
deriving DecidableEq, Repr

namespace TFValue

/-- `IsNull()`. -/
def isNull : TFValue α → Bool
  | .null => true
  | _ => false

/-- `IsUnknown()`. -/
def isUnknown : TFValue α → Bool
  | .unknown => true
  | _ => false

/-- A known (non-null, non-unknown) value. -/
def isKnown : TFValue α → Bool
  | .value _ => true
  | _ => false

/-- `types.String.ValueString()`: the value, or "" when null/unknown. -/
def valueString : TFValue String → String
  | .value s => s
  | _ => ""

/-- `types.String.ValueStringPointer()`: nil exactly when null; the unknown
state holds the zero value "". -/
def valueStringPointer : TFValue String → Option String
  | .null => none
  | .unknown => some ""
  | .value s => some s

/-- `types.Int32.ValueInt32()`. -/
def valueInt32 : TFValue Int → Int
  | .value n => n
  | _ => 0

/-- `types.Int32.ValueInt32Pointer()`. -/
def valueInt32Pointer : TFValue Int → Option Int
  | .null => none
  | .unknown => some 0
  | .value n => some n

/-- `types.Bool.ValueBool()`. -/
def valueBool : TFValue Bool → Bool
  | .value b => b
  | _ => false

/-- `types.Bool.ValueBoolPointer()`. -/
def valueBoolPointer : TFValue Bool → Option Bool
  | .null => none
  | .unknown => some false
  | .value b => some b

/-- `types.List.Elements()` followed by `ElementsAs` into a fresh slice:
the element list for a known list, the empty slice otherwise. -/
def elements : TFValue (List α) → List α
  | .value l => l
  | _ => []

/-- `types.Object.As(...)` into a zero-valued target model: the model for a
known object; on null/unknown the call only emits a diagnostic and the target
keeps its zero value `zero`. -/
def objectAs (v : TFValue α) (zero : α) : α :=
  match v with
  | .value m => m
  | _ => zero

end TFValue

/-- Models terraform-plugin-framework `types.ListValueFrom` on a Go
`[]string`: a nil slice produces a null list, otherwise the (possibly empty)
element list in order.  (The source's own comment on
`listValueFromEvenIfNil` documents that `types.ListValueFrom` does not
return a list object for a nil input.) -/
def listValueFrom (elems : Option (List String)) : TFValue (List String) :=
  match elems with
  | none => TFValue.null
  | some l => TFValue.value l

/-- `listValueFromEvenIfNil` (accelbyte_match_pool_model.go): like
`types.ListValueFrom`, but a nil or empty input slice yields an explicit
empty list instead of a null list. -/
def listValueFromEvenIfNil (elems : Option (List String)) : TFValue (List String) :=
  match elems with
  | none => TFValue.value []
  | some l => TFValue.value l

/-! ## Match pool: declared-state model and API model -/

/-- `AccelByteMatchPoolMatchFunctionOverrideModel`. -/
structure AccelByteMatchPoolMatchFunctionOverrideModel where
  backfillMatches : TFValue String
  enrichment : TFValue (List String)
  makeMatches : TFValue String
  statCodes : TFValue (List String)
  validation : TFValue (List String)
deriving DecidableEq, Repr

/-- The Go zero value of `AccelByteMatchPoolMatchFunctionOverrideModel`
(every framework-typed field is null). -/
def zeroMatchFunctionOverrideModel : AccelByteMatchPoolMatchFunctionOverrideModel :=
  { backfillMatches := TFValue.null
    enrichment := TFValue.null
    makeMatches := TFValue.null
    statCodes := TFValue.null
    validation := TFValue.null }

/-- `AccelByteMatchPoolModel` (accelbyte_match_pool_model.go). -/
structure AccelByteMatchPoolModel where
  namespace_ : TFValue String
  name : TFValue String
  id : TFValue String
  ruleSet : TFValue String
  sessionTemplate : TFValue String
  ticketExpirationSeconds : TFValue Int
  bestLatencyCalculationMethod : TFValue String
  autoAcceptBackfillProposal : TFValue Bool
  backfillProposalExpirationSeconds : TFValue Int
  backfillTicketExpirationSeconds : TFValue Int
  matchFunction : TFValue String
  matchFunctionOverride : TFValue AccelByteMatchPoolMatchFunctionOverrideModel
  crossplayEnabled : TFValue Bool
  platformGroupEnabled : TFValue Bool
deriving DecidableEq, Repr

/-- SDK `match2clientmodels.APIMatchFunctionOverride`; Go slices are
`Option (List String)` with `none` = nil slice. -/
structure APIMatchFunctionOverride where
  backfillMatches : String
  enrichment : Option (List String)
  makeMatches : String
  statCodes : Option (List String)
  validation : Option (List String)
deriving DecidableEq, Repr

/-- SDK `match2clientmodels.APIMatchPool`; `Option` fields are Go pointers. -/
structure APIMatchPool where
  name : Option String
  ruleSet : Option String
  sessionTemplate : Option String
  ticketExpirationSeconds : Option Int
  bestLatencyCalculationMethod : String
  autoAcceptBackfillProposal : Option Bool
  backfillProposalExpirationSeconds : Option Int
  backfillTicketExpirationSeconds : Option Int
  matchFunction : Option String
  matchFunctionOverride : Option APIMatchFunctionOverride
  crossplayDisabled : Bool
  platformGroupEnabled : Bool
deriving DecidableEq, Repr

/-- `updateFromApiMatchPool` (accelbyte_match_pool_model.go, lines 81-155):
copies the API `pool` into the state `data`.  The Go function dereferences
the pointer-typed fields unconditionally; `none` models the nil-pointer
panic.  The special handling of `MatchFunctionOverride` is reproduced
verbatim: absent in both plan and API yields a null nested attribute;
otherwise a present object is built from the API data, or from empty
sub-attributes when only the plan had one. -/
def updateFromApiMatchPool (data : AccelByteMatchPoolModel) (pool : APIMatchPool) :
    Option AccelByteMatchPoolModel :=
  match pool.ruleSet, pool.sessionTemplate, pool.ticketExpirationSeconds,
      pool.autoAcceptBackfillProposal, pool.backfillProposalExpirationSeconds,
      pool.backfillTicketExpirationSeconds, pool.matchFunction with
  | some ruleSet, some sessionTemplate, some ticketExpirationSeconds,
    some autoAcceptBackfillProposal, some backfillProposalExpirationSeconds,
    some backfillTicketExpirationSeconds, some matchFunction =>
    let matchFunctionOverrideExistsInPlan : Bool :=
      !data.matchFunctionOverride.isNull && !data.matchFunctionOverride.isUnknown
    let matchFunctionOverrideExistsInApi : Bool := pool.matchFunctionOverride.isSome
    let matchFunctionOverride : TFValue AccelByteMatchPoolMatchFunctionOverrideModel :=
      if !matchFunctionOverrideExistsInPlan && !matchFunctionOverrideExistsInApi then
        TFValue.null
      else
        match pool.matchFunctionOverride with
        | some mfo =>
          TFValue.value
            { backfillMatches := TFValue.value mfo.backfillMatches
              enrichment := listValueFromEvenIfNil mfo.enrichment
              makeMatches := TFValue.value mfo.makeMatches
              statCodes := listValueFromEvenIfNil mfo.statCodes
              validation := listValueFromEvenIfNil mfo.validation }
        | none =>
          TFValue.value
            { backfillMatches := TFValue.value ""
              enrichment := TFValue.null
              makeMatches := TFValue.value ""
              statCodes := TFValue.null
              validation := TFValue.null }
    some { data with
      ruleSet := TFValue.value ruleSet
      sessionTemplate := TFValue.value sessionTemplate
      ticketExpirationSeconds := TFValue.value ticketExpirationSeconds
      bestLatencyCalculationMethod := TFValue.value pool.bestLatencyCalculationMethod
      autoAcceptBackfillProposal := TFValue.value autoAcceptBackfillProposal
      backfillProposalExpirationSeconds := TFValue.value backfillProposalExpirationSeconds
      backfillTicketExpirationSeconds := TFValue.value backfillTicketExpirationSeconds
      matchFunction := TFValue.value matchFunction
      matchFunctionOverride := matchFunctionOverride
      crossplayEnabled := TFValue.value (!pool.crossplayDisabled)
      platformGroupEnabled := TFValue.value pool.platformGroupEnabled }
  | _, _, _, _, _, _, _ => none

/-- `toApiMatchFunctionOverride` (accelbyte_match_pool_model.go, lines
159-180): reads the nested object (via `As` into a zero model) and builds the
API sub-object; the three list fields are built with `make` + `ElementsAs`,
so they are always non-nil slices. -/
def toApiMatchFunctionOverride
    (matchFunctionOverride : TFValue AccelByteMatchPoolMatchFunctionOverrideModel) :
    APIMatchFunctionOverride :=
  let m := matchFunctionOverride.objectAs zeroMatchFunctionOverrideModel
  { backfillMatches := m.backfillMatches.valueString
    enrichment := some m.enrichment.elements
    makeMatches := m.makeMatches.valueString
    statCodes := some m.statCodes.elements
    validation := some m.validation.elements }

/-- `toApiMatchPool` (accelbyte_match_pool_model.go, lines 184-223). -/
def toApiMatchPool (data : AccelByteMatchPoolModel) : APIMatchPool :=
  let matchFunctionOverride : Option APIMatchFunctionOverride :=
    if !data.matchFunctionOverride.isNull && !data.matchFunctionOverride.isUnknown then
      some (toApiMatchFunctionOverride data.matchFunctionOverride)
    else
      none
  { name := data.name.valueStringPointer
    ruleSet := data.ruleSet.valueStringPointer
    sessionTemplate := data.sessionTemplate.valueStringPointer
    ticketExpirationSeconds := data.ticketExpirationSeconds.valueInt32Pointer
    bestLatencyCalculationMethod := data.bestLatencyCalculationMethod.valueString
    autoAcceptBackfillProposal := data.autoAcceptBackfillProposal.valueBoolPointer
    backfillProposalExpirationSeconds := data.backfillProposalExpirationSeconds.valueInt32Pointer
    backfillTicketExpirationSeconds := data.backfillTicketExpirationSeconds.valueInt32Pointer
    matchFunction := data.matchFunction.valueStringPointer
    matchFunctionOverride := matchFunctionOverride
    crossplayDisabled := !data.crossplayEnabled.valueBool
    platformGroupEnabled := data.platformGroupEnabled.valueBool }

/-- `toApiMatchPoolConfig` (accelbyte_match_pool_model.go, lines 227-265):
identical field mapping as `toApiMatchPool` into the update request type
`APIMatchPoolConfig` (same fields minus `Name`). -/
structure APIMatchPoolConfig where
  ruleSet : Option String
  sessionTemplate : Option String
  ticketExpirationSeconds : Option Int
  bestLatencyCalculationMethod : String
  autoAcceptBackfillProposal : Option Bool
  backfillProposalExpirationSeconds : Option Int
  backfillTicketExpirationSeconds : Option Int
  matchFunction : Option String
  matchFunctionOverride : Option APIMatchFunctionOverride
  crossplayDisabled : Bool
  platformGroupEnabled : Bool
deriving DecidableEq, Repr

/-- `toApiMatchPoolConfig` (accelbyte_match_pool_model.go, lines 227-265). -/
def toApiMatchPoolConfig (data : AccelByteMatchPoolModel) : APIMatchPoolConfig :=
  let matchFunctionOverride : Option APIMatchFunctionOverride :=
    if !data.matchFunctionOverride.isNull && !data.matchFunctionOverride.isUnknown then
      some (toApiMatchFunctionOverride data.matchFunctionOverride)
    else
      none
  { ruleSet := data.ruleSet.valueStringPointer
    sessionTemplate := data.sessionTemplate.valueStringPointer
    ticketExpirationSeconds := data.ticketExpirationSeconds.valueInt32Pointer
    bestLatencyCalculationMethod := data.bestLatencyCalculationMethod.valueString
    autoAcceptBackfillProposal := data.autoAcceptBackfillProposal.valueBoolPointer
    backfillProposalExpirationSeconds := data.backfillProposalExpirationSeconds.valueInt32Pointer
    backfillTicketExpirationSeconds := data.backfillTicketExpirationSeconds.valueInt32Pointer
    matchFunction := data.matchFunction.valueStringPointer
    matchFunctionOverride := matchFunctionOverride
    crossplayDisabled := !data.crossplayEnabled.valueBool
    platformGroupEnabled := data.platformGroupEnabled.valueBool }

/-- Well-formedness of a populated match-function-override object under the
declared schema: every sub-attribute is a known value (the schema marks all
five sub-attributes Optional+Computed with static defaults, so a declared
state never carries null or unknown sub-attributes inside a present object). -/
def wfMatchFunctionOverrideModel (m : AccelByteMatchPoolMatchFunctionOverrideModel) : Bool :=
  m.backfillMatches.isKnown && m.enrichment.isKnown && m.makeMatches.isKnown &&
  m.statCodes.isKnown && m.validation.isKnown

/-- Well-formedness of a match-pool declared state under the declared schema:
all scalar attributes are known (required, or optional-computed with a
default), and the optional nested `match_function_override` is either null or
a known object with known sub-attributes. -/
def wfMatchPoolModel (x : AccelByteMatchPoolModel) : Bool :=
  x.ruleSet.isKnown && x.sessionTemplate.isKnown && x.ticketExpirationSeconds.isKnown &&
  x.bestLatencyCalculationMethod.isKnown && x.autoAcceptBackfillProposal.isKnown &&
  x.backfillProposalExpirationSeconds.isKnown && x.backfillTicketExpirationSeconds.isKnown &&
  x.matchFunction.isKnown && x.crossplayEnabled.isKnown && x.platformGroupEnabled.isKnown &&
  (x.matchFunctionOverride.isNull ||
    (x.matchFunctionOverride.isKnown &&
      wfMatchFunctionOverrideModel (x.matchFunctionOverride.objectAs zeroMatchFunctionOverrideModel)))

/-! ## JSON model

The JSON-blob attributes (`configuration` on match rulesets,
`custom_attributes` on session templates) are parsed with Go
`encoding/json.Unmarshal` into `interface` values and re-serialized with
`json.Marshal`.  These two external library functions are embedded below:
`Json` is the value universe (numerals restricted to integers; Go stores
numbers as `float64`, and every integer-valued number round-trips through
`float64` to the same text), `jsonParse` is the decoder (recursive descent
with a fuel bound that is generous for the input length), and `jsonMarshal`
is the Go encoder: minimal whitespace, object keys sorted lexicographically
(Go sorts map keys), duplicate keys collapsed with the later one winning
(Go map assignment order), and Go's default string escaping. -/

/-- A JSON value as produced by Go `encoding/json.Unmarshal` into an
`interface` target (numbers restricted to integer values). -/
inductive Json where
  | null : Json
  | bool (b : Bool) : Json
  | num (n : Int) : Json
  | str (s : String) : Json
  | arr (elems : List Json) : Json
  | obj (fields : List (String × Json)) : Json

/-- Skip JSON whitespace. -/
def jsonSkipWs : List Char → List Char
  | [] => []
  | c :: cs => if c = ' ' || c = '\t' || c = '\n' || c = '\r' then jsonSkipWs cs else c :: cs

/-- Value of a hexadecimal digit. -/
def hexDigitVal (c : Char) : Option Nat :=
  if '0' ≤ c && c ≤ '9' then some (c.toNat - 48)
  else if 'a' ≤ c && c ≤ 'f' then some (c.toNat - 87)
  else if 'A' ≤ c && c ≤ 'F' then some (c.toNat - 55)
  else none

/-- Parse the remainder of a JSON string literal (after the opening quote),
returning the decoded characters and the input after the closing quote. -/
def jsonStringRest (fuel : Nat) (cs : List Char) : Option (List Char × List Char) :=
  match fuel, cs with
  | 0, _ => none
  | _, [] => none
  | fuel + 1, c :: cs =>
    if c = '"' then some ([], cs)
    else if c = '\\' then
      match cs with
      | [] => none
      | e :: cs2 =>
        let cont (ch : Char) (rest : List Char) : Option (List Char × List Char) :=
          match jsonStringRest fuel rest with
          | some (s, r) => some (ch :: s, r)
          | none => none
        if e = '"' then cont '"' cs2
        else if e = '\\' then cont '\\' cs2
        else if e = '/' then cont '/' cs2
        else if e = 'b' then cont (Char.ofNat 8) cs2
        else if e = 'f' then cont (Char.ofNat 12) cs2
        else if e = 'n' then cont '\n' cs2
        else if e = 'r' then cont '\r' cs2
        else if e = 't' then cont '\t' cs2
        else if e = 'u' then
          match cs2 with
          | h1 :: h2 :: h3 :: h4 :: cs3 =>
            match hexDigitVal h1, hexDigitVal h2, hexDigitVal h3, hexDigitVal h4 with
            | some a, some b, some c3, some d => cont (Char.ofNat (((a * 16 + b) * 16 + c3) * 16 + d)) cs3
            | _, _, _, _ => none
          | _ => none
        else none
    else
      match jsonStringRest fuel cs with
      | some (s, r) => some (c :: s, r)
      | none => none

/-- Longest leading digit run. -/
def jsonDigits : List Char → List Char × List Char
  | [] => ([], [])
  | c :: cs =>
    if c.isDigit then
      let (ds, r) := jsonDigits cs
      (c :: ds, r)
    else
      ([], c :: cs)

/-- Numeric value of a digit run. -/
def digitsToNat (ds : List Char) : Nat :=
  ds.foldl (fun acc c => acc * 10 + (c.toNat - 48)) 0

/-- Add a parsed object member with Go map semantics: a later duplicate key
wins over an earlier one. -/
def jsonConsField (k : String) (v : Json) (rest : List (String × Json)) :
    List (String × Json) :=
  if rest.any (fun p => p.1 == k) then rest else (k, v) :: rest

mutual

/-- Parse one JSON value (fuel-bounded recursive descent). -/
def jsonParseValue (fuel : Nat) (cs0 : List Char) : Option (Json × List Char) :=
  match fuel with
  | 0 => none
  | fuel + 1 =>
    match jsonSkipWs cs0 with
    | [] => none
    | c :: rest =>
      if c = 'n' then
        match rest with
        | 'u' :: 'l' :: 'l' :: r => some (Json.null, r)
        | _ => none
      else if c = 't' then
        match rest with
        | 'r' :: 'u' :: 'e' :: r => some (Json.bool true, r)
        | _ => none
      else if c = 'f' then
        match rest with
        | 'a' :: 'l' :: 's' :: 'e' :: r => some (Json.bool false, r)
        | _ => none
      else if c = '"' then
        match jsonStringRest (fuel + 1) rest with
        | some (s, r) => some (Json.str (String.mk s), r)
        | none => none
      else if c = '-' then
        match jsonDigits rest with
        | ([], _) => none
        | (ds, r) => some (Json.num (-(Int.ofNat (digitsToNat ds))), r)
      else if c.isDigit then
        match jsonDigits (c :: rest) with
        | (ds, r) => some (Json.num (Int.ofNat (digitsToNat ds)), r)
      else if c = Char.ofNat 91 then
        jsonParseElems fuel rest
      else if c = Char.ofNat 123 then
        jsonParseMembers fuel rest
      else none

/-- Parse the contents of a JSON array after the opening bracket. -/
def jsonParseElems (fuel : Nat) (cs0 : List Char) : Option (Json × List Char) :=
  match fuel with
  | 0 => none
  | fuel + 1 =>
    match jsonSkipWs cs0 with
    | [] => none
    | c :: rest =>
      if c = Char.ofNat 93 then some (Json.arr [], rest)
      else
        match jsonParseValue fuel (c :: rest) with
        | some (j, r2) =>
          match jsonParseElemsRest fuel r2 with
          | some (js, r3) => some (Json.arr (j :: js), r3)
          | none => none
        | none => none

/-- Parse ", value" repetitions then the closing bracket of a JSON array. -/
def jsonParseElemsRest (fuel : Nat) (cs0 : List Char) : Option (List Json × List Char) :=
  match fuel with
  | 0 => none
  | fuel + 1 =>
    match jsonSkipWs cs0 with
    | [] => none
    | c :: rest =>
      if c = Char.ofNat 93 then some ([], rest)
      else if c = ',' then
        match jsonParseValue fuel rest with
        | some (j, r2) =>
          match jsonParseElemsRest fuel r2 with
          | some (js, r3) => some (j :: js, r3)
          | none => none
        | none => none
      else none

/-- Parse the contents of a JSON object after the opening brace. -/
def jsonParseMembers (fuel : Nat) (cs0 : List Char) : Option (Json × List Char) :=
  match fuel with
  | 0 => none
  | fuel + 1 =>
    match jsonSkipWs cs0 with
    | [] => none
    | c :: rest =>
      if c = Char.ofNat 125 then some (Json.obj [], rest)
      else if c = '"' then
        match jsonStringRest (fuel + 1) rest with
        | some (k, r1) =>
          match jsonSkipWs r1 with
          | ':' :: r2 =>
            match jsonParseValue fuel r2 with
            | some (v, r3) =>
              match jsonParseMembersRest fuel r3 with
              | some (fs, r4) => some (Json.obj (jsonConsField (String.mk k) v fs), r4)
              | none => none
            | none => none
          | _ => none
        | none => none
      else none

/-- Parse ", key : value" repetitions then the closing brace of a JSON object. -/
def jsonParseMembersRest (fuel : Nat) (cs0 : List Char) : Option (List (String × Json) × List Char) :=
  match fuel with
  | 0 => none
  | fuel + 1 =>
    match jsonSkipWs cs0 with
    | [] => none
    | c :: rest =>
      if c = Char.ofNat 125 then some ([], rest)
      else if c = ',' then
        match jsonSkipWs rest with
        | '"' :: r0 =>
          match jsonStringRest (fuel + 1) r0 with
          | some (k, r1) =>
            match jsonSkipWs r1 with
            | ':' :: r2 =>
              match jsonParseValue fuel r2 with
              | some (v, r3) =>
                match jsonParseMembersRest fuel r3 with
                | some (fs, r4) => some (jsonConsField (String.mk k) v fs, r4)
                | none => none
              | none => none
            | _ => none
          | none => none
        | _ => none
      else none

end

/-- Go `encoding/json.Unmarshal` into an `interface` target: parse a single
JSON value, allowing only trailing whitespace. -/
def jsonParse (s : String) : Option Json :=
  match jsonParseValue (2 * s.length + 16) s.data with
  | some (j, rest) => if (jsonSkipWs rest).isEmpty then some j else none
  | none => none

/-- Hexadecimal digit character (lowercase), for `\u00xx` escapes. -/
def hexChar (n : Nat) : Char :=
  if n < 10 then Char.ofNat (48 + n) else Char.ofNat (87 + n)

/-- Go `encoding/json` string escaping (HTML escaping on, as by default in
`json.Marshal`): quotes, backslashes and control characters are escaped,
and so are the HTML-sensitive characters and U+2028/U+2029. -/
def jsonEscapeChar (c : Char) : List Char :=
  if c = '"' then ['\\', '"']
  else if c = '\\' then ['\\', '\\']
  else if c = '\n' then ['\\', 'n']
  else if c = '\r' then ['\\', 'r']
  else if c = '\t' then ['\\', 't']
  else if c = '<' then ['\\', 'u', '0', '0', '3', 'c']
  else if c = '>' then ['\\', 'u', '0', '0', '3', 'e']
  else if c = '&' then ['\\', 'u', '0', '0', '2', '6']
  else if c.toNat < 32 then
    ['\\', 'u', '0', '0', hexChar (c.toNat / 16), hexChar (c.toNat % 16)]
  else if c.toNat = 8232 then ['\\', 'u', '2', '0', '2', '8']
  else if c.toNat = 8233 then ['\\', 'u', '2', '0', '2', '9']
  else [c]

/-- Quote and escape a string as Go `json.Marshal` does. -/
def jsonQuote (s : String) : String :=
  "\"" ++ String.mk (s.data.map jsonEscapeChar).flatten ++ "\""

/-- Insert an object member into a key-sorted member list (Go `json.Marshal`
sorts map keys lexicographically). -/
def jsonInsertSorted (p : String × Json) : List (String × Json) → List (String × Json)
  | [] => [p]
  | q :: qs => if p.1 < q.1 then p :: q :: qs else q :: jsonInsertSorted p qs

/-- Sort object members by key. -/
def jsonSortFields (fs : List (String × Json)) : List (String × Json) :=
  fs.foldr jsonInsertSorted []

mutual

/-- Size of a JSON value, used as the fuel bound for `jsonMarshalF`
(it strictly dominates the nesting depth). -/
def jsonSize : Json → Nat
  | Json.null => 1
  | Json.bool _ => 1
  | Json.num _ => 1
  | Json.str _ => 1
  | Json.arr es => jsonSizeList es + 1
  | Json.obj fs => jsonSizeFields fs + 1

/-- Total size of a list of JSON values. -/
def jsonSizeList : List Json → Nat
  | [] => 0
  | j :: js => jsonSize j + jsonSizeList js + 1

/-- Total size of a list of JSON object members. -/
def jsonSizeFields : List (String × Json) → Nat
  | [] => 0
  | (_, v) :: fs => jsonSize v + jsonSizeFields fs + 1

end

/-- Fuel-bounded worker for `jsonMarshal`; the fuel (instantiated with
`jsonSize`, which strictly dominates the nesting depth) never runs out. -/
def jsonMarshalF : Nat → Json → String
  | 0, _ => ""
  | _ + 1, Json.null => "null"
  | _ + 1, Json.bool b => cond b "true" "false"
  | _ + 1, Json.num n => toString n
  | _ + 1, Json.str s => jsonQuote s
  | fuel + 1, Json.arr es =>
    "[" ++ String.intercalate "," (es.map (jsonMarshalF fuel)) ++ "]"
  | fuel + 1, Json.obj fs =>
    "\x7b" ++
      String.intercalate ","
        ((jsonSortFields fs).map (fun p => jsonQuote p.1 ++ ":" ++ jsonMarshalF fuel p.2)) ++
      "\x7d"

/-- Go `encoding/json.Marshal` of a decoded JSON value: minimal whitespace,
object keys sorted lexicographically, Go's default string escaping. -/
def jsonMarshal (j : Json) : String :=
  jsonMarshalF (jsonSize j) j

/-! ## Session template: declared-state model and API model -/

/-- `AccelByteSessionTemplateCustomSessionFunctionModel`. -/
structure AccelByteSessionTemplateCustomSessionFunctionModel where
  onSessionCreated : TFValue Bool
  onSessionUpdated : TFValue Bool
  onSessionDeleted : TFValue Bool
  onPartyCreated : TFValue Bool
  onPartyUpdated : TFValue Bool
  onPartyDeleted : TFValue Bool
  customUrl : TFValue String
  extendApp : TFValue String
deriving DecidableEq, Repr

/-- Go zero value of the custom-session-function model. -/
def zeroCustomSessionFunctionModel : AccelByteSessionTemplateCustomSessionFunctionModel :=
  { onSessionCreated := TFValue.null
    onSessionUpdated := TFValue.null
    onSessionDeleted := TFValue.null
    onPartyCreated := TFValue.null
    onPartyUpdated := TFValue.null
    onPartyDeleted := TFValue.null
    customUrl := TFValue.null
    extendApp := TFValue.null }

/-- `AccelByteSessionTemplateP2pServerModel` (no attributes). -/
structure AccelByteSessionTemplateP2pServerModel where
deriving DecidableEq, Repr

/-- `AccelByteSessionTemplateAmsServerModel`. -/
structure AccelByteSessionTemplateAmsServerModel where
  requestedRegions : TFValue (List String)
  preferredClaimKeys : TFValue (List String)
  fallbackClaimKeys : TFValue (List String)
deriving DecidableEq, Repr

/-- Go zero value of the AMS-server model. -/
def zeroAmsServerModel : AccelByteSessionTemplateAmsServerModel :=
  { requestedRegions := TFValue.null
    preferredClaimKeys := TFValue.null
    fallbackClaimKeys := TFValue.null }

/-- `AccelByteSessionTemplateCustomServerModel`. -/
structure AccelByteSessionTemplateCustomServerModel where
  customUrl : TFValue String
  extendApp : TFValue String
deriving DecidableEq, Repr

/-- Go zero value of the custom-server model. -/
def zeroCustomServerModel : AccelByteSessionTemplateCustomServerModel :=
  { customUrl := TFValue.null, extendApp := TFValue.null }

/-- `AccelByteSessionTemplateModel` (accelbyte_session_template_model.go). -/
structure AccelByteSessionTemplateModel where
  namespace_ : TFValue String
  name : TFValue String
  id : TFValue String
  minPlayers : TFValue Int
  maxPlayers : TFValue Int
  joinability : TFValue String
  maxActiveSessions : TFValue Int
  customSessionFunction : TFValue AccelByteSessionTemplateCustomSessionFunctionModel
  inviteTimeout : TFValue Int
  inactiveTimeout : TFValue Int
  leaderElectionGracePeriod : TFValue Int
  p2pServer : TFValue AccelByteSessionTemplateP2pServerModel
  amsServer : TFValue AccelByteSessionTemplateAmsServerModel
  customServer : TFValue AccelByteSessionTemplateCustomServerModel
  autoJoinSession : TFValue Bool
  chatRoom : TFValue Bool
  secretValidation : TFValue Bool
  generateCode : TFValue Bool
  immutableSessionStorage : TFValue Bool
  manualSetReadyForDS : TFValue Bool
  tiedTeamsSessionLifetime : TFValue Bool
  autoLeaveSession : TFValue Bool
  customAttributes : TFValue String
deriving DecidableEq, Repr

/-- `AccelByteSessionTemplateServerType` constants. -/
def AccelByteSessionTemplateServerTypeNone : String := "NONE"

/-- Server type constant "P2P". -/
def AccelByteSessionTemplateServerTypeP2P : String := "P2P"

/-- Server type constant "DS". -/
def AccelByteSessionTemplateServerTypeDS : String := "DS"

/-- DS source constant "" (none). -/
def AccelByteSessionTemplateDsSourceNone : String := ""

/-- DS source constant "AMS". -/
def AccelByteSessionTemplateDsSourceAms : String := "AMS"

/-- DS source constant "custom". -/
def AccelByteSessionTemplateDsSourceCustom : String := "custom"

/-- SDK `sessionclientmodels.ModelsExtendConfiguration`; `functionFlag` is a
`*int32` bit-field, embedded as `Option Nat`. -/
structure ModelsExtendConfiguration where
  customURL : String
  appName : String
  functionFlag : Option Nat
deriving DecidableEq, Repr

/-- SDK `sessionclientmodels.ApimodelsCreateConfigurationTemplateRequest`
(the fields set by `toApiSessionTemplate`; `Option` fields are Go pointers,
`Option (List String)` fields are Go slices with `none` = nil). -/
structure ApimodelsCreateConfigurationTemplateRequest where
  name : Option String
  minPlayers : Option Int
  maxPlayers : Option Int
  joinability : Option String
  maxActiveSessions : Int
  grpcSessionConfig : Option ModelsExtendConfiguration
  inviteTimeout : Option Int
  inactiveTimeout : Option Int
  leaderElectionGracePeriod : Int
  type_ : Option String
  dsSource : String
  requestedRegions : Option (List String)
  preferredClaimKeys : Option (List String)
  fallbackClaimKeys : Option (List String)
  customURLGRPC : String
  appName : String
  autoJoin : Bool
  textChat : Option Bool
  enableSecret : Bool
  disableCodeGeneration : Bool
  immutableStorage : Bool
  dsManualSetReady : Bool
  tieTeamsSessionLifetime : Bool
  autoLeaveSession : Bool
  attributes : Json

/-- SDK `sessionclientmodels.ApimodelsUpdateConfigurationTemplateRequest`:
same fields as the create request (both are filled identically by the
encoders). -/
structure ApimodelsUpdateConfigurationTemplateRequest where
  name : Option String
  minPlayers : Option Int
  maxPlayers : Option Int
  joinability : Option String
  maxActiveSessions : Int
  grpcSessionConfig : Option ModelsExtendConfiguration
  inviteTimeout : Option Int
  inactiveTimeout : Option Int
  leaderElectionGracePeriod : Int
  type_ : Option String
  dsSource : String
  requestedRegions : Option (List String)
  preferredClaimKeys : Option (List String)
  fallbackClaimKeys : Option (List String)
  customURLGRPC : String
  appName : String
  autoJoin : Bool
  textChat : Option Bool
  enableSecret : Bool
  disableCodeGeneration : Bool
  immutableStorage : Bool
  dsManualSetReady : Bool
  tieTeamsSessionLifetime : Bool
  autoLeaveSession : Bool
  attributes : Json

/-- SDK `sessionclientmodels.ApimodelsConfigurationTemplateResponse`
(the fields read by `updateFromApiSessionTemplate`). -/
structure ApimodelsConfigurationTemplateResponse where
  minPlayers : Option Int
  maxPlayers : Option Int
  joinability : Option String
  maxActiveSessions : Int
  grpcSessionConfig : Option ModelsExtendConfiguration
  inviteTimeout : Option Int
  inactiveTimeout : Option Int
  leaderElectionGracePeriod : Int
  type_ : Option String
  dsSource : String
  requestedRegions : Option (List String)
  preferredClaimKeys : Option (List String)
  fallbackClaimKeys : Option (List String)
  customURLGRPC : String
  appName : String
  autoJoin : Bool
  textChat : Option Bool
  enableSecret : Bool
  disableCodeGeneration : Bool
  immutableStorage : Bool
  dsManualSetReady : Bool
  tieTeamsSessionLifetime : Bool
  autoLeaveSession : Bool
  attributes : Json

/-- A create request and a configuration-template response carry the same
fields; the backend echoes the created template back.  This cast expresses
"feeding the encoded API request back through the decoder" in the round-trip
law. -/
def createRequestToResponse (req : ApimodelsCreateConfigurationTemplateRequest) :
    ApimodelsConfigurationTemplateResponse :=
  { minPlayers := req.minPlayers
    maxPlayers := req.maxPlayers
    joinability := req.joinability
    maxActiveSessions := req.maxActiveSessions
    grpcSessionConfig := req.grpcSessionConfig
    inviteTimeout := req.inviteTimeout
    inactiveTimeout := req.inactiveTimeout
    leaderElectionGracePeriod := req.leaderElectionGracePeriod
    type_ := req.type_
    dsSource := req.dsSource
    requestedRegions := req.requestedRegions
    preferredClaimKeys := req.preferredClaimKeys
    fallbackClaimKeys := req.fallbackClaimKeys
    customURLGRPC := req.customURLGRPC
    appName := req.appName
    autoJoin := req.autoJoin
    textChat := req.textChat
    enableSecret := req.enableSecret
    disableCodeGeneration := req.disableCodeGeneration
    immutableStorage := req.immutableStorage
    dsManualSetReady := req.dsManualSetReady
    tieTeamsSessionLifetime := req.tieTeamsSessionLifetime
    autoLeaveSession := req.autoLeaveSession
    attributes := req.attributes }

/-- `updateFromApiSessionTemplate` (accelbyte_session_template_model.go,
lines 136-228): copies the API response into the state `data`.  `none`
models the nil-pointer panic on a missing always-present pointer field
(min/max players, joinability, timeouts, type, text chat).  The
custom-session-function object is rebuilt only when the response has a
`GrpcSessionConfig` with a non-nil `FunctionFlag`; otherwise it is null.
The server variant is selected from the `(Type, DsSource)` discriminator
pair; the AMS lists go through `types.ListValueFrom` (null list for a nil
slice).  The custom-attributes blob is re-serialized with `json.Marshal`. -/
def updateFromApiSessionTemplate (data : AccelByteSessionTemplateModel)
    (configurationTemplate : ApimodelsConfigurationTemplateResponse) :
    Option AccelByteSessionTemplateModel :=
  match configurationTemplate.minPlayers, configurationTemplate.maxPlayers,
      configurationTemplate.joinability, configurationTemplate.inviteTimeout,
      configurationTemplate.inactiveTimeout, configurationTemplate.type_,
      configurationTemplate.textChat with
  | some minPlayers, some maxPlayers, some joinability, some inviteTimeout,
    some inactiveTimeout, some serverType0, some textChat =>
    let customSessionFunction : TFValue AccelByteSessionTemplateCustomSessionFunctionModel :=
      match configurationTemplate.grpcSessionConfig with
      | some cfg =>
        match cfg.functionFlag with
        | some functionFlag =>
          TFValue.value
            { customUrl := TFValue.value cfg.customURL
              extendApp := TFValue.value cfg.appName
              onSessionCreated := TFValue.value ((functionFlag &&& 1) != 0)
              onSessionUpdated := TFValue.value ((functionFlag &&& 2) != 0)
              onSessionDeleted := TFValue.value ((functionFlag &&& 4) != 0)
              onPartyCreated := TFValue.value ((functionFlag &&& 8) != 0)
              onPartyUpdated := TFValue.value ((functionFlag &&& 16) != 0)
              onPartyDeleted := TFValue.value ((functionFlag &&& 32) != 0) }
        | none => TFValue.null
      | none => TFValue.null
    let serverType : String := serverType0
    let dsSource : String := configurationTemplate.dsSource
    let p2pServer : TFValue AccelByteSessionTemplateP2pServerModel :=
      if serverType = AccelByteSessionTemplateServerTypeP2P then
        TFValue.value {}
      else
        TFValue.null
    let amsServer : TFValue AccelByteSessionTemplateAmsServerModel :=
      if serverType = AccelByteSessionTemplateServerTypeP2P then
        TFValue.null
      else if serverType = AccelByteSessionTemplateServerTypeDS &&
          dsSource = AccelByteSessionTemplateDsSourceAms then
        TFValue.value
          { requestedRegions := listValueFrom configurationTemplate.requestedRegions
            preferredClaimKeys := listValueFrom configurationTemplate.preferredClaimKeys
            fallbackClaimKeys := listValueFrom configurationTemplate.fallbackClaimKeys }
      else
        TFValue.null
    let customServer : TFValue AccelByteSessionTemplateCustomServerModel :=
      if serverType = AccelByteSessionTemplateServerTypeP2P then
        TFValue.null
      else if serverType = AccelByteSessionTemplateServerTypeDS &&
          dsSource = AccelByteSessionTemplateDsSourceAms then
        TFValue.null
      else if serverType = AccelByteSessionTemplateServerTypeDS &&
          dsSource = AccelByteSessionTemplateDsSourceCustom then
        TFValue.value
          { customUrl := TFValue.value configurationTemplate.customURLGRPC
            extendApp := TFValue.value configurationTemplate.appName }
      else
        TFValue.null
    some { data with
      minPlayers := TFValue.value minPlayers
      maxPlayers := TFValue.value maxPlayers
      joinability := TFValue.value joinability
      maxActiveSessions := TFValue.value configurationTemplate.maxActiveSessions
      customSessionFunction := customSessionFunction
      inviteTimeout := TFValue.value inviteTimeout
      inactiveTimeout := TFValue.value inactiveTimeout
      leaderElectionGracePeriod := TFValue.value configurationTemplate.leaderElectionGracePeriod
      p2pServer := p2pServer
      amsServer := amsServer
      customServer := customServer
      autoJoinSession := TFValue.value configurationTemplate.autoJoin
      chatRoom := TFValue.value textChat
      secretValidation := TFValue.value configurationTemplate.enableSecret
      generateCode := TFValue.value (!configurationTemplate.disableCodeGeneration)
      immutableSessionStorage := TFValue.value configurationTemplate.immutableStorage
      manualSetReadyForDS := TFValue.value configurationTemplate.dsManualSetReady
      tiedTeamsSessionLifetime := TFValue.value configurationTemplate.tieTeamsSessionLifetime
      autoLeaveSession := TFValue.value configurationTemplate.autoLeaveSession
      customAttributes := TFValue.value (jsonMarshal configurationTemplate.attributes) }
  | _, _, _, _, _, _, _ => none

/-- `toModelsExtendConfiguration` (accelbyte_session_template_model.go,
lines 232-264): reads the custom-session-function object and packs the six
event flags into the wire bit-field (bit 0 on-session-created ... bit 5
on-party-deleted). -/
def toModelsExtendConfiguration
    (customSessionFunction : TFValue AccelByteSessionTemplateCustomSessionFunctionModel) :
    ModelsExtendConfiguration :=
  let m := customSessionFunction.objectAs zeroCustomSessionFunctionModel
  let f0 : Nat := 0
  let f1 : Nat := if m.onSessionCreated.valueBool then f0 ||| 1 else f0
  let f2 : Nat := if m.onSessionUpdated.valueBool then f1 ||| 2 else f1
  let f3 : Nat := if m.onSessionDeleted.valueBool then f2 ||| 4 else f2
  let f4 : Nat := if m.onPartyCreated.valueBool then f3 ||| 8 else f3
  let f5 : Nat := if m.onPartyUpdated.valueBool then f4 ||| 16 else f4
  let f6 : Nat := if m.onPartyDeleted.valueBool then f5 ||| 32 else f5
  { customURL := m.customUrl.valueString
    appName := m.extendApp.valueString
    functionFlag := some f6 }

/-- The server-discriminator resolution shared verbatim by
`toApiSessionTemplate` and `toApiSessionTemplateConfig` (lines 285-329 and
400-444): the three populated-checks run in sequence, each overwriting the
`(serverType, dsSource)` pair, and the AMS lists / custom fields are
extracted when the corresponding variant is populated. -/
structure ServerFields where
  serverType : String
  dsSource : String
  requestedRegions : Option (List String)
  preferredClaimKeys : Option (List String)
  fallbackClaimKeys : Option (List String)
  customUrlGrpc : String
  appName : String
deriving DecidableEq, Repr

/-- The sequential variant resolution of `toApiSessionTemplate` /
`toApiSessionTemplateConfig`. -/
def resolveServerFields (data : AccelByteSessionTemplateModel) : ServerFields :=
  let st0 : String := AccelByteSessionTemplateServerTypeNone
  let ds0 : String := AccelByteSessionTemplateDsSourceNone
  let st1 : String :=
    if !data.p2pServer.isNull && !data.p2pServer.isUnknown then
      AccelByteSessionTemplateServerTypeP2P
    else st0
  let amsPopulated : Bool := !data.amsServer.isNull && !data.amsServer.isUnknown
  let st2 : String := if amsPopulated then AccelByteSessionTemplateServerTypeDS else st1
  let ds2 : String := if amsPopulated then AccelByteSessionTemplateDsSourceAms else ds0
  let amsServer := data.amsServer.objectAs zeroAmsServerModel
  let requestedRegions : Option (List String) :=
    if amsPopulated then some amsServer.requestedRegions.elements else none
  let preferredClaimKeys : Option (List String) :=
    if amsPopulated then some amsServer.preferredClaimKeys.elements else none
  let fallbackClaimKeys : Option (List String) :=
    if amsPopulated then some amsServer.fallbackClaimKeys.elements else none
  let customPopulated : Bool := !data.customServer.isNull && !data.customServer.isUnknown
  let st3 : String := if customPopulated then AccelByteSessionTemplateServerTypeDS else st2
  let ds3 : String := if customPopulated then AccelByteSessionTemplateDsSourceCustom else ds2
  let customServer := data.customServer.objectAs zeroCustomServerModel
  let customUrlGrpc : String :=
    if customPopulated then customServer.customUrl.valueString else ""
  let appName : String :=
    if customPopulated then customServer.extendApp.valueString else ""
  { serverType := st3
    dsSource := ds3
    requestedRegions := requestedRegions
    preferredClaimKeys := preferredClaimKeys
    fallbackClaimKeys := fallbackClaimKeys
    customUrlGrpc := customUrlGrpc
    appName := appName }

/-- `toApiSessionTemplate` (accelbyte_session_template_model.go, lines
268-379): builds the create request; `none` models the error return when the
custom-attributes blob fails to parse as JSON. -/
def toApiSessionTemplate (data : AccelByteSessionTemplateModel) :
    Option ApimodelsCreateConfigurationTemplateRequest :=
  let grpcSessionConfig : Option ModelsExtendConfiguration :=
    if !data.customSessionFunction.isNull && !data.customSessionFunction.isUnknown then
      some (toModelsExtendConfiguration data.customSessionFunction)
    else
      none
  let sf := resolveServerFields data
  match jsonParse data.customAttributes.valueString with
  | none => none
  | some customAttributesJson =>
    some
      { name := data.name.valueStringPointer
        minPlayers := data.minPlayers.valueInt32Pointer
        maxPlayers := data.maxPlayers.valueInt32Pointer
        joinability := data.joinability.valueStringPointer
        maxActiveSessions := data.maxActiveSessions.valueInt32
        grpcSessionConfig := grpcSessionConfig
        inviteTimeout := data.inviteTimeout.valueInt32Pointer
        inactiveTimeout := data.inactiveTimeout.valueInt32Pointer
        leaderElectionGracePeriod := data.leaderElectionGracePeriod.valueInt32
        type_ := some sf.serverType
        dsSource := sf.dsSource
        requestedRegions := sf.requestedRegions
        preferredClaimKeys := sf.preferredClaimKeys
        fallbackClaimKeys := sf.fallbackClaimKeys
        customURLGRPC := sf.customUrlGrpc
        appName := sf.appName
        autoJoin := data.autoJoinSession.valueBool
        textChat := data.chatRoom.valueBoolPointer
        enableSecret := data.secretValidation.valueBool
        disableCodeGeneration := !data.generateCode.valueBool
        immutableStorage := data.immutableSessionStorage.valueBool
        dsManualSetReady := data.manualSetReadyForDS.valueBool
        tieTeamsSessionLifetime := data.tiedTeamsSessionLifetime.valueBool
        autoLeaveSession := data.autoLeaveSession.valueBool
        attributes := customAttributesJson }

/-- `toApiSessionTemplateConfig` (accelbyte_session_template_model.go, lines
383-494): the update-request encoder; field-for-field the same mapping as
`toApiSessionTemplate`. -/
def toApiSessionTemplateConfig (data : AccelByteSessionTemplateModel) :
    Option ApimodelsUpdateConfigurationTemplateRequest :=
  let grpcSessionConfig : Option ModelsExtendConfiguration :=
    if !data.customSessionFunction.isNull && !data.customSessionFunction.isUnknown then
      some (toModelsExtendConfiguration data.customSessionFunction)
    else
      none
  let sf := resolveServerFields data
  match jsonParse data.customAttributes.valueString with
  | none => none
  | some customAttributesJson =>
    some
      { name := data.name.valueStringPointer
        minPlayers := data.minPlayers.valueInt32Pointer
        maxPlayers := data.maxPlayers.valueInt32Pointer
        joinability := data.joinability.valueStringPointer
        maxActiveSessions := data.maxActiveSessions.valueInt32
        grpcSessionConfig := grpcSessionConfig
        inviteTimeout := data.inviteTimeout.valueInt32Pointer
        inactiveTimeout := data.inactiveTimeout.valueInt32Pointer
        leaderElectionGracePeriod := data.leaderElectionGracePeriod.valueInt32
        type_ := some sf.serverType
        dsSource := sf.dsSource
        requestedRegions := sf.requestedRegions
        preferredClaimKeys := sf.preferredClaimKeys
        fallbackClaimKeys := sf.fallbackClaimKeys
        customURLGRPC := sf.customUrlGrpc
        appName := sf.appName
        autoJoin := data.autoJoinSession.valueBool
        textChat := data.chatRoom.valueBoolPointer
        enableSecret := data.secretValidation.valueBool
        disableCodeGeneration := !data.generateCode.valueBool
        immutableStorage := data.immutableSessionStorage.valueBool
        dsManualSetReady := data.manualSetReadyForDS.valueBool
        tieTeamsSessionLifetime := data.tiedTeamsSessionLifetime.valueBool
        autoLeaveSession := data.autoLeaveSession.valueBool
        attributes := customAttributesJson }

/-- Schema well-formedness of a populated custom-session-function object:
every sub-attribute is known (all are Optional+Computed with defaults). -/
def wfCustomSessionFunctionModel (m : AccelByteSessionTemplateCustomSessionFunctionModel) : Bool :=
  m.onSessionCreated.isKnown && m.onSessionUpdated.isKnown && m.onSessionDeleted.isKnown &&
  m.onPartyCreated.isKnown && m.onPartyUpdated.isKnown && m.onPartyDeleted.isKnown &&
  m.customUrl.isKnown && m.extendApp.isKnown

/-- Schema well-formedness of a populated AMS-server object. -/
def wfAmsServerModel (m : AccelByteSessionTemplateAmsServerModel) : Bool :=
  m.requestedRegions.isKnown && m.preferredClaimKeys.isKnown && m.fallbackClaimKeys.isKnown

/-- Schema well-formedness of a populated custom-server object. -/
def wfCustomServerModel (m : AccelByteSessionTemplateCustomServerModel) : Bool :=
  m.customUrl.isKnown && m.extendApp.isKnown

/-- Schema well-formedness of a session-template declared state: scalar
attributes known, each optional nested object null or known with known
sub-attributes, and at most one of the three server-provider variants
populated (the spec's mutual-exclusion invariant, enforced before encoding). -/
def wfSessionTemplateModel (x : AccelByteSessionTemplateModel) : Bool :=
  x.minPlayers.isKnown && x.maxPlayers.isKnown && x.joinability.isKnown &&
  x.maxActiveSessions.isKnown &&
  (x.customSessionFunction.isNull ||
    (x.customSessionFunction.isKnown &&
      wfCustomSessionFunctionModel (x.customSessionFunction.objectAs zeroCustomSessionFunctionModel))) &&
  x.inviteTimeout.isKnown && x.inactiveTimeout.isKnown && x.leaderElectionGracePeriod.isKnown &&
  (x.p2pServer.isNull || x.p2pServer.isKnown) &&
  (x.amsServer.isNull ||
    (x.amsServer.isKnown && wfAmsServerModel (x.amsServer.objectAs zeroAmsServerModel))) &&
  (x.customServer.isNull ||
    (x.customServer.isKnown && wfCustomServerModel (x.customServer.objectAs zeroCustomServerModel))) &&
  decide ((if x.p2pServer.isKnown then 1 else 0) + (if x.amsServer.isKnown then 1 else 0) +
    (if x.customServer.isKnown then (1:Nat) else 0) ≤ 1) &&
  x.autoJoinSession.isKnown && x.chatRoom.isKnown && x.secretValidation.isKnown &&
  x.generateCode.isKnown && x.immutableSessionStorage.isKnown && x.manualSetReadyForDS.isKnown &&
  x.tiedTeamsSessionLifetime.isKnown && x.autoLeaveSession.isKnown && x.customAttributes.isKnown

/-! ## Match ruleset: declared-state model and API model -/

/-- `AccelByteMatchRuleSetModel`. -/
structure AccelByteMatchRuleSetModel where
  namespace_ : TFValue String
  name : TFValue String
  id : TFValue String
  enableCustomMatchFunction : TFValue Bool
  configuration : TFValue String
deriving DecidableEq, Repr

/-- SDK `match2clientmodels.APIRuleSetPayload`; `data` is the opaque parsed
JSON configuration. -/
structure APIRuleSetPayload where
  name : Option String
  enableCustomMatchFunction : Option Bool
  data : Json

/-- `updateFromApiMatchRuleSet` (match ruleset model file, lines 35-49):
copies the API payload into the state; dereferences
`EnableCustomMatchFunction` unconditionally (`none` models the nil-pointer
panic) and re-serializes the configuration with `json.Marshal`. -/
def updateFromApiMatchRuleSet (data : AccelByteMatchRuleSetModel)
    (matchRuleSet : APIRuleSetPayload) : Option AccelByteMatchRuleSetModel :=
  match matchRuleSet.enableCustomMatchFunction with
  | some enableCustomMatchFunction =>
    some { data with
      enableCustomMatchFunction := TFValue.value enableCustomMatchFunction
      configuration := TFValue.value (jsonMarshal matchRuleSet.data) }
  | none => none

/-- `toApiMatchRuleSet` (match ruleset model file, lines 53-69): builds the
API payload; `none` models the error return when the configuration blob
fails to parse as JSON. -/
def toApiMatchRuleSet (data : AccelByteMatchRuleSetModel) : Option APIRuleSetPayload :=
  match jsonParse data.configuration.valueString with
  | none => none
  | some configurationJson =>
    some { name := data.name.valueStringPointer
           enableCustomMatchFunction := data.enableCustomMatchFunction.valueBoolPointer
           data := configurationJson }

/-- Schema well-formedness of a match-ruleset declared state. -/
def wfMatchRuleSetModel (x : AccelByteMatchRuleSetModel) : Bool :=
  x.enableCustomMatchFunction.isKnown && x.configuration.isKnown

/-! ## Resource lifecycle controllers

Each CRUD entrypoint is embedded as a function from the declared-state
inputs and the injected result of its (single) remote call to an
`OpResult`: the tracked state after the operation (`none` = not tracked),
the error diagnostics added, whether the handler panicked (nil-pointer
dereference), and the trace of externally visible effects (API calls and
sleeps) in order.  On an error diagnostic the handler returns without
setting new state, so the previously tracked state (a parameter) is kept;
`resp.State.RemoveResource` drops the state without an error. -/

/-- A Go `error` value returned by an SDK call: `isNotFoundType` says
whether `errors.As` against the operation's `...NotFound` response type
matches, and `message` is the `err.Error()` text. -/
structure GoError where
  isNotFoundType : Bool
  message : String
deriving DecidableEq, Repr

/-- Whether the first character list is a leading run of the second. -/
def charsLead : List Char → List Char → Bool
  | [], _ => true
  | _ :: _, [] => false
  | a :: as, b :: bs => a == b && charsLead as bs

/-- Whether the first character list occurs contiguously in the second. -/
def charsHave (needle : List Char) : List Char → Bool
  | [] => charsLead needle []
  | b :: bs => charsLead needle (b :: bs) || charsHave needle bs

/-- Go `strings.Contains`. -/
def strContains (hay needle : String) : Bool :=
  charsHave needle.data hay.data

/-- The remote API operations invoked by the three resources. -/
inductive ApiCall where
  | createMatchPool
  | matchPoolDetails
  | updateMatchPool
  | deleteMatchPool
  | createRuleSet
  | ruleSetDetails
  | updateRuleSet
  | deleteRuleSet
  | createConfigTemplate
  | getConfigTemplate
  | updateConfigTemplate
  | deleteConfigTemplate
deriving DecidableEq, Repr

/-- An externally visible effect of a CRUD handler. -/
inductive Effect where
  | apiCall (c : ApiCall)
  | sleep (seconds : Nat)
deriving DecidableEq, Repr

/-- Whether an effect is a sleep. -/
def Effect.isSleep : Effect → Bool
  | .sleep _ => true
  | _ => false

/-- Result of one CRUD handler invocation. -/
structure OpResult (σ : Type) where
  finalState : Option σ
  errors : List String
  crashed : Bool
  trace : List Effect
deriving DecidableEq, Repr

/-- `CACHE_INVALIDATION_DELAY_SECONDS` (accelbyte_match_pool_resource.go). -/
def CACHE_INVALIDATION_DELAY_SECONDS : Nat := 20

/-- `computeMatchPoolId`. -/
def computeMatchPoolId (namespace_ : String) (name : String) : String :=
  namespace_ ++ "/" ++ name

/-- `computeMatchRuleSetId`. -/
def computeMatchRuleSetId (namespace_ : String) (name : String) : String :=
  namespace_ ++ "/" ++ name

/-- `computeSessionTemplateId`. -/
def computeSessionTemplateId (namespace_ : String) (name : String) : String :=
  namespace_ ++ "/" ++ name

/-- `AccelByteMatchPoolResource.Create` (lines 216-276): encode, create,
sleep 20 s, detail-fetch, decode, set state. -/
def matchPoolCreate (plan : AccelByteMatchPoolModel)
    (createResult : Option GoError)
    (detailsResult : Except GoError APIMatchPool) : OpResult AccelByteMatchPoolModel :=
  let data := { plan with
    id := TFValue.value (computeMatchPoolId plan.namespace_.valueString plan.name.valueString) }
  let _req := toApiMatchPool data
  match createResult with
  | some _ =>
    { finalState := none
      errors := ["Error when creating match pool via AccelByte API"]
      crashed := false
      trace := [Effect.apiCall ApiCall.createMatchPool] }
  | none =>
    match detailsResult with
    | Except.error _ =>
      { finalState := none
        errors := ["Error when reading match pool via AccelByte API"]
        crashed := false
        trace := [Effect.apiCall ApiCall.createMatchPool,
          Effect.sleep CACHE_INVALIDATION_DELAY_SECONDS,
          Effect.apiCall ApiCall.matchPoolDetails] }
    | Except.ok pool =>
      match updateFromApiMatchPool data pool with
      | some d =>
        { finalState := some d
          errors := []
          crashed := false
          trace := [Effect.apiCall ApiCall.createMatchPool,
            Effect.sleep CACHE_INVALIDATION_DELAY_SECONDS,
            Effect.apiCall ApiCall.matchPoolDetails] }
      | none =>
        { finalState := none
          errors := []
          crashed := true
          trace := [Effect.apiCall ApiCall.createMatchPool,
            Effect.sleep CACHE_INVALIDATION_DELAY_SECONDS,
            Effect.apiCall ApiCall.matchPoolDetails] }

/-- `AccelByteMatchPoolResource.Read` (lines 278-323): detail-fetch; a
"not found" failure (the error text contains "error 404:") silently removes
the resource from state; any other failure is an error with prior state
kept; success decodes into state. -/
def matchPoolRead (prior : AccelByteMatchPoolModel)
    (detailsResult : Except GoError APIMatchPool) : OpResult AccelByteMatchPoolModel :=
  match detailsResult with
  | Except.error e =>
    if strContains e.message "error 404:" then
      { finalState := none, errors := [], crashed := false,
        trace := [Effect.apiCall ApiCall.matchPoolDetails] }
    else
      { finalState := some prior
        errors := ["Error when reading match pool via AccelByte API"]
        crashed := false
        trace := [Effect.apiCall ApiCall.matchPoolDetails] }
  | Except.ok pool =>
    match updateFromApiMatchPool prior pool with
    | some d =>
      { finalState := some d, errors := [], crashed := false,
        trace := [Effect.apiCall ApiCall.matchPoolDetails] }
    | none =>
      { finalState := some prior, errors := [], crashed := true,
        trace := [Effect.apiCall ApiCall.matchPoolDetails] }

/-- `AccelByteMatchPoolResource.Update` (lines 325-372): encode, update
call; a not-found failure (detected with `errors.As` against
`UpdateMatchPoolNotFound`) adds the classified "Resource not found" error
and leaves the previously tracked state; any other failure adds an error
and leaves the previously tracked state; success sleeps 20 s and decodes
the returned pool into state. -/
def matchPoolUpdate (prior : AccelByteMatchPoolModel) (plan : AccelByteMatchPoolModel)
    (updateResult : Except GoError APIMatchPool) : OpResult AccelByteMatchPoolModel :=
  let _req := toApiMatchPoolConfig plan
  match updateResult with
  | Except.error e =>
    if e.isNotFoundType then
      { finalState := some prior, errors := ["Resource not found"], crashed := false,
        trace := [Effect.apiCall ApiCall.updateMatchPool] }
    else
      { finalState := some prior
        errors := ["Error when updating match pool via AccelByte API"]
        crashed := false
        trace := [Effect.apiCall ApiCall.updateMatchPool] }
  | Except.ok pool =>
    match updateFromApiMatchPool plan pool with
    | some d =>
      { finalState := some d, errors := [], crashed := false,
        trace := [Effect.apiCall ApiCall.updateMatchPool,
          Effect.sleep CACHE_INVALIDATION_DELAY_SECONDS] }
    | none =>
      { finalState := some prior, errors := [], crashed := true,
        trace := [Effect.apiCall ApiCall.updateMatchPool,
          Effect.sleep CACHE_INVALIDATION_DELAY_SECONDS] }

/-- `AccelByteMatchPoolResource.Delete` (lines 374-400): delete call;
failure is an error with prior state kept; success sleeps 20 s and the
framework drops the entity from tracked state. -/
def matchPoolDelete (prior : AccelByteMatchPoolModel)
    (deleteResult : Option GoError) : OpResult AccelByteMatchPoolModel :=
  match deleteResult with
  | some _ =>
    { finalState := some prior
      errors := ["Error when deleting match pool via AccelByte API"]
      crashed := false
      trace := [Effect.apiCall ApiCall.deleteMatchPool] }
  | none =>
    { finalState := none, errors := [], crashed := false,
      trace := [Effect.apiCall ApiCall.deleteMatchPool,
        Effect.sleep CACHE_INVALIDATION_DELAY_SECONDS] }

/-- `AccelByteMatchRuleSetResource.Create` (lines 114-170): encode (an
invalid JSON configuration is an error before any API call), create,
follow-up detail-fetch, decode, set state.  No sleep is performed. -/
def ruleSetCreate (plan : AccelByteMatchRuleSetModel)
    (createResult : Option GoError)
    (detailsResult : Except GoError APIRuleSetPayload) : OpResult AccelByteMatchRuleSetModel :=
  let data := { plan with
    id := TFValue.value (computeMatchRuleSetId plan.namespace_.valueString plan.name.valueString) }
  match toApiMatchRuleSet data with
  | none =>
    { finalState := none
      errors := ["Error when converting our internal state to an AccelByte API match ruleset"]
      crashed := false
      trace := [] }
  | some _ =>
    match createResult with
    | some _ =>
      { finalState := none
        errors := ["Error when creating match ruleset via AccelByte API"]
        crashed := false
        trace := [Effect.apiCall ApiCall.createRuleSet] }
    | none =>
      match detailsResult with
      | Except.error _ =>
        { finalState := none
          errors := ["Error when refreshing match ruleset via AccelByte API"]
          crashed := false
          trace := [Effect.apiCall ApiCall.createRuleSet, Effect.apiCall ApiCall.ruleSetDetails] }
      | Except.ok rs =>
        match updateFromApiMatchRuleSet data rs with
        | some d =>
          { finalState := some d, errors := [], crashed := false,
            trace := [Effect.apiCall ApiCall.createRuleSet, Effect.apiCall ApiCall.ruleSetDetails] }
        | none =>
          { finalState := none, errors := [], crashed := true,
            trace := [Effect.apiCall ApiCall.createRuleSet, Effect.apiCall ApiCall.ruleSetDetails] }

/-- `AccelByteMatchRuleSetResource.Read` (lines 172-222): detail-fetch;
"error 404:" in the error text silently removes the resource from state;
other failures keep prior state with an error. -/
def ruleSetRead (prior : AccelByteMatchRuleSetModel)
    (detailsResult : Except GoError APIRuleSetPayload) : OpResult AccelByteMatchRuleSetModel :=
  match detailsResult with
  | Except.error e =>
    if strContains e.message "error 404:" then
      { finalState := none, errors := [], crashed := false,
        trace := [Effect.apiCall ApiCall.ruleSetDetails] }
    else
      { finalState := some prior
        errors := ["Error when reading match ruleset via AccelByte API"]
        crashed := false
        trace := [Effect.apiCall ApiCall.ruleSetDetails] }
  | Except.ok rs =>
    match updateFromApiMatchRuleSet prior rs with
    | some d =>
      { finalState := some d, errors := [], crashed := false,
        trace := [Effect.apiCall ApiCall.ruleSetDetails] }
    | none =>
      { finalState := some prior, errors := [], crashed := true,
        trace := [Effect.apiCall ApiCall.ruleSetDetails] }

/-- `AccelByteMatchRuleSetResource.Update` (lines 224-278): encode (invalid
JSON is an error before any API call), update; not-found (`errors.As`
against `UpdateRuleSetNotFound`) is the classified "Resource not found"
error with prior state kept; other failures keep prior state; success
decodes the returned payload.  No sleep is performed. -/
def ruleSetUpdate (prior : AccelByteMatchRuleSetModel) (plan : AccelByteMatchRuleSetModel)
    (updateResult : Except GoError APIRuleSetPayload) : OpResult AccelByteMatchRuleSetModel :=
  match toApiMatchRuleSet plan with
  | none =>
    { finalState := some prior
      errors := ["Error when converting our internal state to an AccelByte API match ruleset"]
      crashed := false
      trace := [] }
  | some _ =>
    match updateResult with
    | Except.error e =>
      if e.isNotFoundType then
        { finalState := some prior, errors := ["Resource not found"], crashed := false,
          trace := [Effect.apiCall ApiCall.updateRuleSet] }
      else
        { finalState := some prior
          errors := ["Error when updating match ruleset via AccelByte API"]
          crashed := false
          trace := [Effect.apiCall ApiCall.updateRuleSet] }
    | Except.ok rs =>
      match updateFromApiMatchRuleSet plan rs with
      | some d =>
        { finalState := some d, errors := [], crashed := false,
          trace := [Effect.apiCall ApiCall.updateRuleSet] }
      | none =>
        { finalState := some prior, errors := [], crashed := true,
          trace := [Effect.apiCall ApiCall.updateRuleSet] }

/-- `AccelByteMatchRuleSetResource.Delete` (lines 280-304): delete call;
no sleep is performed. -/
def ruleSetDelete (prior : AccelByteMatchRuleSetModel)
    (deleteResult : Option GoError) : OpResult AccelByteMatchRuleSetModel :=
  match deleteResult with
  | some _ =>
    { finalState := some prior
      errors := ["Error when deleting ruleset via AccelByte API"]
      crashed := false
      trace := [Effect.apiCall ApiCall.deleteRuleSet] }
  | none =>
    { finalState := none, errors := [], crashed := false,
      trace := [Effect.apiCall ApiCall.deleteRuleSet] }

/-- `AccelByteSessionTemplateResource.Create` (session template resource
file, lines 419-464): encode (an invalid JSON custom-attributes blob is an
error before any API call), create, decode the response, set state.  No
follow-up fetch and no sleep are performed. -/
def sessionTemplateCreate (plan : AccelByteSessionTemplateModel)
    (createResult : Except GoError ApimodelsConfigurationTemplateResponse) :
    OpResult AccelByteSessionTemplateModel :=
  let data := { plan with
    id := TFValue.value (computeSessionTemplateId plan.namespace_.valueString plan.name.valueString) }
  match toApiSessionTemplate data with
  | none =>
    { finalState := none
      errors := ["Error when converting our internal state to an AccelByte API session template"]
      crashed := false
      trace := [] }
  | some _ =>
    match createResult with
    | Except.error _ =>
      { finalState := none
        errors := ["Error when creating session template via AccelByte API"]
        crashed := false
        trace := [Effect.apiCall ApiCall.createConfigTemplate] }
    | Except.ok resp =>
      match updateFromApiSessionTemplate data resp with
      | some d =>
        { finalState := some d, errors := [], crashed := false,
          trace := [Effect.apiCall ApiCall.createConfigTemplate] }
      | none =>
        { finalState := none, errors := [], crashed := true,
          trace := [Effect.apiCall ApiCall.createConfigTemplate] }

/-- `AccelByteSessionTemplateResource.Read` (lines 466-512): get call;
not-found (detected with `errors.As` against
`AdminGetConfigurationTemplateV1NotFound`) silently removes the resource
from state; other failures keep prior state with an error. -/
def sessionTemplateRead (prior : AccelByteSessionTemplateModel)
    (getResult : Except GoError ApimodelsConfigurationTemplateResponse) :
    OpResult AccelByteSessionTemplateModel :=
  match getResult with
  | Except.error e =>
    if e.isNotFoundType then
      { finalState := none, errors := [], crashed := false,
        trace := [Effect.apiCall ApiCall.getConfigTemplate] }
    else
      { finalState := some prior
        errors := ["Error when reading session template via AccelByte API"]
        crashed := false
        trace := [Effect.apiCall ApiCall.getConfigTemplate] }
  | Except.ok resp =>
    match updateFromApiSessionTemplate prior resp with
    | some d =>
      { finalState := some d, errors := [], crashed := false,
        trace := [Effect.apiCall ApiCall.getConfigTemplate] }
    | none =>
      { finalState := some prior, errors := [], crashed := true,
        trace := [Effect.apiCall ApiCall.getConfigTemplate] }

/-- `AccelByteSessionTemplateResource.Update` (lines 514-568): encode
(invalid JSON is an error before any API call), update; not-found
(`errors.As` against `AdminUpdateConfigurationTemplateV1NotFound`) is the
classified "Resource not found" error with prior state kept; other
failures keep prior state; success decodes the response.  No sleep. -/
def sessionTemplateUpdate (prior : AccelByteSessionTemplateModel)
    (plan : AccelByteSessionTemplateModel)
    (updateResult : Except GoError ApimodelsConfigurationTemplateResponse) :
    OpResult AccelByteSessionTemplateModel :=
  match toApiSessionTemplateConfig plan with
  | none =>
    { finalState := some prior
      errors := ["Error when converting our internal state to an AccelByte API session template config"]
      crashed := false
      trace := [] }
  | some _ =>
    match updateResult with
    | Except.error e =>
      if e.isNotFoundType then
        { finalState := some prior, errors := ["Resource not found"], crashed := false,
          trace := [Effect.apiCall ApiCall.updateConfigTemplate] }
      else
        { finalState := some prior
          errors := ["Error when updating session template via AccelByte API"]
          crashed := false
          trace := [Effect.apiCall ApiCall.updateConfigTemplate] }
    | Except.ok resp =>
      match updateFromApiSessionTemplate plan resp with
      | some d =>
        { finalState := some d, errors := [], crashed := false,
          trace := [Effect.apiCall ApiCall.updateConfigTemplate] }
      | none =>
        { finalState := some prior, errors := [], crashed := true,
          trace := [Effect.apiCall ApiCall.updateConfigTemplate] }

/-- `AccelByteSessionTemplateResource.Delete` (lines 570-594): delete call;
no sleep is performed. -/
def sessionTemplateDelete (prior : AccelByteSessionTemplateModel)
    (deleteResult : Option GoError) : OpResult AccelByteSessionTemplateModel :=
  match deleteResult with
  | some _ =>
    { finalState := some prior
      errors := ["Error when deleting session template via AccelByte API"]
      crashed := false
      trace := [Effect.apiCall ApiCall.deleteConfigTemplate] }
  | none =>
    { finalState := none, errors := [], crashed := false,
      trace := [Effect.apiCall ApiCall.deleteConfigTemplate] }

/-- Example match-ruleset declared state whose configuration is valid JSON
but not in `json.Marshal`'s canonical form (extra interior space). -/
def exampleRuleSetNoncanonical : AccelByteMatchRuleSetModel :=
  { namespace_ := TFValue.value "providertest"
    name := TFValue.value "test"
    id := TFValue.value "providertest/test"
    enableCustomMatchFunction := TFValue.value false
    configuration := TFValue.value "\x7b \x7d" }

/-- Example custom-session-function object: only `on_party_created` set. -/
def exampleCsfModel : AccelByteSessionTemplateCustomSessionFunctionModel :=
  { onSessionCreated := TFValue.value false
    onSessionUpdated := TFValue.value false
    onSessionDeleted := TFValue.value false
    onPartyCreated := TFValue.value true
    onPartyUpdated := TFValue.value false
    onPartyDeleted := TFValue.value false
    customUrl := TFValue.value "https://example.com"
    extendApp := TFValue.value "" }

/-- Example session-template declared state with a populated
custom-session-function and no server variant. -/
def exampleSessionTemplateCsf : AccelByteSessionTemplateModel :=
  { namespace_ := TFValue.value "providertest"
    name := TFValue.value "test"
    id := TFValue.value "providertest/test"
    minPlayers := TFValue.value 2
    maxPlayers := TFValue.value 12
    joinability := TFValue.value "OPEN"
    maxActiveSessions := TFValue.value (-1)
    customSessionFunction := TFValue.value exampleCsfModel
    inviteTimeout := TFValue.value 60
    inactiveTimeout := TFValue.value 300
    leaderElectionGracePeriod := TFValue.value 240
    p2pServer := TFValue.null
    amsServer := TFValue.null
    customServer := TFValue.null
    autoJoinSession := TFValue.value false
    chatRoom := TFValue.value false
    secretValidation := TFValue.value false
    generateCode := TFValue.value true
    immutableSessionStorage := TFValue.value false
    manualSetReadyForDS := TFValue.value false
    tiedTeamsSessionLifetime := TFValue.value false
    autoLeaveSession := TFValue.value false
    customAttributes := TFValue.value "\x7b\x7d" }

/-- Example API response with no `GrpcSessionConfig` and no server type. -/
def exampleRespNoCfg : ApimodelsConfigurationTemplateResponse :=
  { minPlayers := some 2
    maxPlayers := some 12
    joinability := some "OPEN"
    maxActiveSessions := -1
    grpcSessionConfig := none
    inviteTimeout := some 60
    inactiveTimeout := some 300
    leaderElectionGracePeriod := 240
    type_ := some "NONE"
    dsSource := ""
    requestedRegions := none
    preferredClaimKeys := none
    fallbackClaimKeys := none
    customURLGRPC := ""
    appName := ""
    autoJoin := false
    textChat := some false
    enableSecret := false
    disableCodeGeneration := false
    immutableStorage := false
    dsManualSetReady := false
    tieTeamsSessionLifetime := false
    autoLeaveSession := false
    attributes := Json.obj [] }

/-- Example API response selecting the AMS variant whose
`RequestedRegions`/`FallbackClaimKeys` slices are nil and whose
`PreferredClaimKeys` is an empty non-nil slice. -/
def exampleRespAmsNil : ApimodelsConfigurationTemplateResponse :=
  { exampleRespNoCfg with
    type_ := some "DS"
    dsSource := "AMS"
    requestedRegions := none
    preferredClaimKeys := some []
    fallbackClaimKeys := none }

/-- Example match-pool declared state (schema-complete, with a populated
match-function-override). -/
def exampleMatchPool : AccelByteMatchPoolModel :=
  { namespace_ := TFValue.value "providertest"
    name := TFValue.value "test"
    id := TFValue.value "providertest/test"
    ruleSet := TFValue.value "test-ruleset"
    sessionTemplate := TFValue.value "test-template"
    ticketExpirationSeconds := TFValue.value 300
    bestLatencyCalculationMethod := TFValue.value ""
    autoAcceptBackfillProposal := TFValue.value false
    backfillProposalExpirationSeconds := TFValue.value 30
    backfillTicketExpirationSeconds := TFValue.value 300
    matchFunction := TFValue.value "default"
    matchFunctionOverride := TFValue.value
      { backfillMatches := TFValue.value "bm"
        enrichment := TFValue.value ["e1"]
        makeMatches := TFValue.value "mm"
        statCodes := TFValue.value []
        validation := TFValue.value ["v1", "v2"] }
    crossplayEnabled := TFValue.value true
    platformGroupEnabled := TFValue.value false }

/-- `exampleMatchPool` without the nested override object. -/
def exampleMatchPoolNoMfo : AccelByteMatchPoolModel :=
  { exampleMatchPool with matchFunctionOverride := TFValue.null }

/-- Example match-ruleset declared state whose configuration is already in
canonical serialized form. -/
def exampleRuleSetCanonical : AccelByteMatchRuleSetModel :=
  { namespace_ := TFValue.value "providertest"
    name := TFValue.value "test"
    id := TFValue.value "providertest/test"
    enableCustomMatchFunction := TFValue.value false
    configuration := TFValue.value "\x7b\x7d" }

/-- The API payload encoded from `exampleRuleSetCanonical`. -/
def exampleReqRuleSet : APIRuleSetPayload :=
  { name := some "test", enableCustomMatchFunction := some false, data := Json.obj [] }

/-- Example session-template declared state with only the AMS variant
populated (the spec's scenario regions). -/
def exampleStAms : AccelByteSessionTemplateModel :=
  { exampleSessionTemplateCsf with
    customSessionFunction := TFValue.null
    amsServer := TFValue.value
      { requestedRegions := TFValue.value ["eu-central-1", "us-west-2"]
        preferredClaimKeys := TFValue.value []
        fallbackClaimKeys := TFValue.value [] } }

/-- The create request encoded from `exampleStAms`. -/
def exampleReqAms : ApimodelsCreateConfigurationTemplateRequest :=
  { name := some "test"
    minPlayers := some 2
    maxPlayers := some 12
    joinability := some "OPEN"
    maxActiveSessions := -1
    grpcSessionConfig := none
    inviteTimeout := some 60
    inactiveTimeout := some 300
    leaderElectionGracePeriod := 240
    type_ := some "DS"
    dsSource := "AMS"
    requestedRegions := some ["eu-central-1", "us-west-2"]
    preferredClaimKeys := some []
    fallbackClaimKeys := some []
    customURLGRPC := ""
    appName := ""
    autoJoin := false
    textChat := some false
    enableSecret := false
    disableCodeGeneration := false
    immutableStorage := false
    dsManualSetReady := false
    tieTeamsSessionLifetime := false
    autoLeaveSession := false
    attributes := Json.obj [] }

/-- The declared state produced by decoding `exampleRespNoCfg` over
`exampleSessionTemplateCsf`. -/
def exampleStDecoded : AccelByteSessionTemplateModel :=
  { exampleSessionTemplateCsf with customSessionFunction := TFValue.null }

/-- `exampleRespNoCfg` with a `GrpcSessionConfig` whose bit-field is 8. -/
def exampleRespCsf8 : ApimodelsConfigurationTemplateResponse :=
  { exampleRespNoCfg with
    grpcSessionConfig := some
      { customURL := "https://example.com", appName := "", functionFlag := some 8 } }

/-- A Go error whose text embeds an HTTP 404 status. -/
def example404Error : GoError :=
  { isNotFoundType := false, message := "unexpected response, got error 404: not found" }

/-- A Go error of the SDK's typed not-found response class. -/
def exampleNotFoundError : GoError :=
  { isNotFoundType := true, message := "not found" }

/-- A generic remote failure. -/
def exampleOtherError : GoError :=
  { isNotFoundType := false, message := "got error 500: backend failure" }

/-- The decode of an API pool with no override, over a plan that kept the
override populated: a present-but-empty object. -/
def exampleMatchPoolEmptyMfo : AccelByteMatchPoolModel :=
  { exampleMatchPool with
    matchFunctionOverride := TFValue.value
      { backfillMatches := TFValue.value ""
        enrichment := TFValue.null
        makeMatches := TFValue.value ""
        statCodes := TFValue.null
        validation := TFValue.null } }

/-- The declared state produced by decoding `exampleRespAmsNil` (AMS variant
with nil region/claim-key slices) over `exampleSessionTemplateCsf`. -/
def exampleStAmsNilDecoded : AccelByteSessionTemplateModel :=
  { exampleSessionTemplateCsf with
    customSessionFunction := TFValue.null
    amsServer := TFValue.value
      { requestedRegions := TFValue.null
        preferredClaimKeys := TFValue.value []
        fallbackClaimKeys := TFValue.null } }

/-- A match-ruleset declared state whose configuration is not valid JSON. -/
def exampleRuleSetBadJson : AccelByteMatchRuleSetModel :=
  { exampleRuleSetCanonical with configuration := TFValue.value "not json" }

/-- A session-template declared state whose custom-attributes blob is not
valid JSON. -/
def exampleStBadJson : AccelByteSessionTemplateModel :=
  { exampleStAms with customAttributes := TFValue.value "not json" }

/-- `exampleStAms` with the custom variant additionally populated — a state
that violates the at-most-one precondition. -/
def exampleStBoth : AccelByteSessionTemplateModel :=
  { exampleStAms with
    customServer := TFValue.value
      { customUrl := TFValue.value "https://example.com", extendApp := TFValue.value "" } }

/-- The create request encoded from `exampleStBoth`: the custom discriminator
pair wins while the AMS lists are still carried. -/
def exampleReqBoth : ApimodelsCreateConfigurationTemplateRequest :=
  { exampleReqAms with
    dsSource := "custom"
    customURLGRPC := "https://example.com"
    appName := "" }

/-- Round-trip over the match pool codec: for any declared state satisfying
the schema's constraints, decoding the encoded create request restores the
state exactly (helper for the claim theorems below). -/
theorem matchPool_roundtrip (x : AccelByteMatchPoolModel) (h : wfMatchPoolModel x = true) :
    updateFromApiMatchPool x (toApiMatchPool x) = some x := by
  obtain ⟨ns, nm, id, rs, st, te, bl, ab, bp, bt, mf, mfo, cp, pg⟩ := x
  simp only [wfMatchPoolModel, wfMatchFunctionOverrideModel, Bool.and_eq_true,
    Bool.or_eq_true] at h
  obtain ⟨⟨⟨⟨⟨⟨⟨⟨⟨⟨hrs, hst⟩, hte⟩, hbl⟩, hab⟩, hbp⟩, hbt⟩, hmf⟩, hcp⟩, hpg⟩, hmfo⟩ := h
  rcases rs with _ | _ | rs <;> simp_all [TFValue.isKnown]
  rcases st with _ | _ | st <;> simp_all [TFValue.isKnown]
  rcases te with _ | _ | te <;> simp_all [TFValue.isKnown]
  rcases bl with _ | _ | bl <;> simp_all [TFValue.isKnown]
  rcases ab with _ | _ | ab <;> simp_all [TFValue.isKnown]
  rcases bp with _ | _ | bp <;> simp_all [TFValue.isKnown]
  rcases bt with _ | _ | bt <;> simp_all [TFValue.isKnown]
  rcases mf with _ | _ | mf <;> simp_all [TFValue.isKnown]
  rcases cp with _ | _ | cp <;> simp_all [TFValue.isKnown]
  rcases pg with _ | _ | pg <;> simp_all [TFValue.isKnown]
  rcases mfo with _ | _ | mfo
  · simp [updateFromApiMatchPool, toApiMatchPool, toApiMatchFunctionOverride, listValueFromEvenIfNil,
      TFValue.valueStringPointer, TFValue.valueInt32Pointer, TFValue.valueBoolPointer,
      TFValue.valueString, TFValue.valueBool, TFValue.elements, TFValue.objectAs,
      TFValue.isNull, TFValue.isUnknown]
  · simp [TFValue.isNull, TFValue.isKnown] at hmfo
  · obtain ⟨a, b, c, d, e⟩ := mfo
    simp only [TFValue.isNull, TFValue.isKnown, TFValue.objectAs, Bool.and_eq_true] at hmfo
    rcases hmfo with h | ⟨-, ⟨⟨⟨⟨ha, hb⟩, hc⟩, hd⟩, he⟩⟩
    · exact absurd h (by simp)
    · rcases a with _ | _ | a <;> simp_all [TFValue.isKnown]
      rcases b with _ | _ | b <;> simp_all [TFValue.isKnown]
      rcases c with _ | _ | c <;> simp_all [TFValue.isKnown]
      rcases d with _ | _ | d <;> simp_all [TFValue.isKnown]
      rcases e with _ | _ | e <;> simp_all [TFValue.isKnown]
      simp [updateFromApiMatchPool, toApiMatchPool, toApiMatchFunctionOverride, listValueFromEvenIfNil,
        TFValue.valueStringPointer, TFValue.valueInt32Pointer, TFValue.valueBoolPointer,
        TFValue.valueString, TFValue.valueBool, TFValue.elements, TFValue.objectAs,
        TFValue.isNull, TFValue.isUnknown]

set_option maxHeartbeats 1000000 in
/-- Round-trip over the session-template codec: for any well-formed declared
state whose encode succeeds, decoding the encoded request restores every
field except the JSON blob, which is restored as the `json.Marshal`
re-serialization of its parsed value (helper for the claim theorems). -/
theorem sessionTemplate_roundtrip (x : AccelByteSessionTemplateModel)
    (h : wfSessionTemplateModel x = true)
    (req : ApimodelsCreateConfigurationTemplateRequest)
    (hreq : toApiSessionTemplate x = some req) :
    updateFromApiSessionTemplate x (createRequestToResponse req) =
      some { x with customAttributes := TFValue.value (jsonMarshal req.attributes) } := by
  obtain ⟨ns, nm, id, mnp, mxp, jn, mas, csf, it, iat, legp, p2p, ams, cst,
    ajs, cr, sv, gc, iss, msr, ttsl, als, ca⟩ := x
  simp only [wfSessionTemplateModel, wfCustomSessionFunctionModel, wfAmsServerModel,
    wfCustomServerModel, Bool.and_eq_true, Bool.or_eq_true, decide_eq_true_eq] at h
  obtain ⟨h, hca⟩ := h
  obtain ⟨h, hals⟩ := h
  obtain ⟨h, httsl⟩ := h
  obtain ⟨h, hmsr⟩ := h
  obtain ⟨h, hiss⟩ := h
  obtain ⟨h, hgc⟩ := h
  obtain ⟨h, hsv⟩ := h
  obtain ⟨h, hcr⟩ := h
  obtain ⟨h, hajs⟩ := h
  obtain ⟨h, hone⟩ := h
  obtain ⟨h, hcst⟩ := h
  obtain ⟨h, hams⟩ := h
  obtain ⟨h, hp2p⟩ := h
  obtain ⟨h, hlegp⟩ := h
  obtain ⟨h, hiat⟩ := h
  obtain ⟨h, hit⟩ := h
  obtain ⟨h, hcsf⟩ := h
  obtain ⟨h, hmas⟩ := h
  obtain ⟨h, hjn⟩ := h
  obtain ⟨hmnp, hmxp⟩ := h
  rcases mnp with _ | _ | mnp <;> simp_all [TFValue.isKnown]
  rcases mxp with _ | _ | mxp <;> simp_all [TFValue.isKnown]
  rcases jn with _ | _ | jn <;> simp_all [TFValue.isKnown]
  rcases mas with _ | _ | mas <;> simp_all [TFValue.isKnown]
  rcases it with _ | _ | it <;> simp_all [TFValue.isKnown]
  rcases iat with _ | _ | iat <;> simp_all [TFValue.isKnown]
  rcases legp with _ | _ | legp <;> simp_all [TFValue.isKnown]
  rcases ajs with _ | _ | ajs <;> simp_all [TFValue.isKnown]
  rcases cr with _ | _ | cr <;> simp_all [TFValue.isKnown]
  rcases sv with _ | _ | sv <;> simp_all [TFValue.isKnown]
  rcases gc with _ | _ | gc <;> simp_all [TFValue.isKnown]
  rcases iss with _ | _ | iss <;> simp_all [TFValue.isKnown]
  rcases msr with _ | _ | msr <;> simp_all [TFValue.isKnown]
  rcases ttsl with _ | _ | ttsl <;> simp_all [TFValue.isKnown]
  rcases als with _ | _ | als <;> simp_all [TFValue.isKnown]
  rcases ca with _ | _ | ca <;> simp_all [TFValue.isKnown]
  rcases hj : jsonParse ca with _ | j
  · simp [toApiSessionTemplate, TFValue.valueString, hj] at hreq
  · rcases csf with _ | _ | csfm
    case unknown => simp [TFValue.isNull, TFValue.isKnown] at hcsf
    case null =>
      rcases p2p with _ | _ | ⟨⟩ <;> rcases ams with _ | _ | amsm <;>
        rcases cst with _ | _ | cstm <;>
        simp_all [TFValue.isNull, TFValue.isKnown, TFValue.objectAs] <;>
        first
        | (obtain ⟨⟨har, hap⟩, haf⟩ := hams
           rcases amsm with ⟨ar, ap, af⟩
           rcases ar with _ | _ | ar <;> simp_all [TFValue.isKnown]
           rcases ap with _ | _ | ap <;> simp_all [TFValue.isKnown]
           rcases af with _ | _ | af <;> simp_all [TFValue.isKnown]
           simp [toApiSessionTemplate, resolveServerFields, hj, TFValue.valueString,
             TFValue.isNull, TFValue.isUnknown, TFValue.objectAs, TFValue.elements] at hreq
           subst hreq
           simp [updateFromApiSessionTemplate, createRequestToResponse, listValueFrom,
             TFValue.valueString, TFValue.valueInt32, TFValue.valueBool,
             TFValue.valueStringPointer, TFValue.valueInt32Pointer, TFValue.valueBoolPointer,
             AccelByteSessionTemplateServerTypeP2P, AccelByteSessionTemplateServerTypeDS,
             AccelByteSessionTemplateDsSourceAms, AccelByteSessionTemplateDsSourceCustom,
             AccelByteSessionTemplateServerTypeNone, AccelByteSessionTemplateDsSourceNone])
        | (obtain ⟨hcu, hea⟩ := hcst
           rcases cstm with ⟨cu, ea⟩
           rcases cu with _ | _ | cu <;> simp_all [TFValue.isKnown]
           rcases ea with _ | _ | ea <;> simp_all [TFValue.isKnown]
           simp [toApiSessionTemplate, resolveServerFields, hj, TFValue.valueString,
             TFValue.isNull, TFValue.isUnknown, TFValue.objectAs, TFValue.elements] at hreq
           subst hreq
           simp [updateFromApiSessionTemplate, createRequestToResponse, listValueFrom,
             TFValue.valueString, TFValue.valueInt32, TFValue.valueBool,
             TFValue.valueStringPointer, TFValue.valueInt32Pointer, TFValue.valueBoolPointer,
             AccelByteSessionTemplateServerTypeP2P, AccelByteSessionTemplateServerTypeDS,
             AccelByteSessionTemplateDsSourceAms, AccelByteSessionTemplateDsSourceCustom,
             AccelByteSessionTemplateServerTypeNone, AccelByteSessionTemplateDsSourceNone])
        | (simp [toApiSessionTemplate, resolveServerFields, hj, TFValue.valueString,
             TFValue.isNull, TFValue.isUnknown, TFValue.objectAs, TFValue.elements] at hreq
           subst hreq
           simp [updateFromApiSessionTemplate, createRequestToResponse, listValueFrom,
             TFValue.valueString, TFValue.valueInt32, TFValue.valueBool,
             TFValue.valueStringPointer, TFValue.valueInt32Pointer, TFValue.valueBoolPointer,
             AccelByteSessionTemplateServerTypeP2P, AccelByteSessionTemplateServerTypeDS,
             AccelByteSessionTemplateDsSourceAms, AccelByteSessionTemplateDsSourceCustom,
             AccelByteSessionTemplateServerTypeNone, AccelByteSessionTemplateDsSourceNone])
    case value =>
      obtain ⟨b1, b2, b3, b4, b5, b6, cu0, ea0⟩ := csfm
      simp only [TFValue.isNull, TFValue.isKnown, TFValue.objectAs, Bool.or_eq_true,
        Bool.and_eq_true] at hcsf
      rcases hcsf with hfalse | ⟨-, ⟨⟨⟨⟨⟨⟨⟨hb1, hb2⟩, hb3⟩, hb4⟩, hb5⟩, hb6⟩, hcu0⟩, hea0⟩⟩
      · exact absurd hfalse (by simp)
      rcases b1 with _ | _ | b1 <;> simp_all [TFValue.isKnown]
      rcases b2 with _ | _ | b2 <;> simp_all [TFValue.isKnown]
      rcases b3 with _ | _ | b3 <;> simp_all [TFValue.isKnown]
      rcases b4 with _ | _ | b4 <;> simp_all [TFValue.isKnown]
      rcases b5 with _ | _ | b5 <;> simp_all [TFValue.isKnown]
      rcases b6 with _ | _ | b6 <;> simp_all [TFValue.isKnown]
      rcases cu0 with _ | _ | cu0 <;> simp_all [TFValue.isKnown]
      rcases ea0 with _ | _ | ea0 <;> simp_all [TFValue.isKnown]
      rcases p2p with _ | _ | ⟨⟩ <;> rcases ams with _ | _ | amsm <;>
        rcases cst with _ | _ | cstm <;>
        simp_all [TFValue.isNull, TFValue.isKnown, TFValue.objectAs] <;>
        first
        | (obtain ⟨⟨har, hap⟩, haf⟩ := hams
           rcases amsm with ⟨ar, ap, af⟩
           rcases ar with _ | _ | ar <;> simp_all [TFValue.isKnown]
           rcases ap with _ | _ | ap <;> simp_all [TFValue.isKnown]
           rcases af with _ | _ | af <;> simp_all [TFValue.isKnown]
           simp [toApiSessionTemplate, resolveServerFields, toModelsExtendConfiguration,
             zeroCustomSessionFunctionModel, hj, TFValue.valueString, TFValue.valueBool,
             TFValue.isNull, TFValue.isUnknown, TFValue.objectAs, TFValue.elements] at hreq
           subst hreq
           simp [updateFromApiSessionTemplate, createRequestToResponse, listValueFrom,
             TFValue.valueString, TFValue.valueInt32, TFValue.valueBool,
             TFValue.valueStringPointer, TFValue.valueInt32Pointer, TFValue.valueBoolPointer,
             AccelByteSessionTemplateServerTypeP2P, AccelByteSessionTemplateServerTypeDS,
             AccelByteSessionTemplateDsSourceAms, AccelByteSessionTemplateDsSourceCustom,
             AccelByteSessionTemplateServerTypeNone, AccelByteSessionTemplateDsSourceNone] <;>
           cases b1 <;> cases b2 <;> cases b3 <;> cases b4 <;> cases b5 <;> cases b6 <;> decide)
        | (obtain ⟨hcu, hea⟩ := hcst
           rcases cstm with ⟨cu, ea⟩
           rcases cu with _ | _ | cu <;> simp_all [TFValue.isKnown]
           rcases ea with _ | _ | ea <;> simp_all [TFValue.isKnown]
           simp [toApiSessionTemplate, resolveServerFields, toModelsExtendConfiguration,
             zeroCustomSessionFunctionModel, hj, TFValue.valueString, TFValue.valueBool,
             TFValue.isNull, TFValue.isUnknown, TFValue.objectAs, TFValue.elements] at hreq
           subst hreq
           simp [updateFromApiSessionTemplate, createRequestToResponse, listValueFrom,
             TFValue.valueString, TFValue.valueInt32, TFValue.valueBool,
             TFValue.valueStringPointer, TFValue.valueInt32Pointer, TFValue.valueBoolPointer,
             AccelByteSessionTemplateServerTypeP2P, AccelByteSessionTemplateServerTypeDS,
             AccelByteSessionTemplateDsSourceAms, AccelByteSessionTemplateDsSourceCustom,
             AccelByteSessionTemplateServerTypeNone, AccelByteSessionTemplateDsSourceNone] <;>
           cases b1 <;> cases b2 <;> cases b3 <;> cases b4 <;> cases b5 <;> cases b6 <;> decide)
        | (simp [toApiSessionTemplate, resolveServerFields, toModelsExtendConfiguration,
             zeroCustomSessionFunctionModel, hj, TFValue.valueString, TFValue.valueBool,
             TFValue.isNull, TFValue.isUnknown, TFValue.objectAs, TFValue.elements] at hreq
           subst hreq
           simp [updateFromApiSessionTemplate, createRequestToResponse, listValueFrom,
             TFValue.valueString, TFValue.valueInt32, TFValue.valueBool,
             TFValue.valueStringPointer, TFValue.valueInt32Pointer, TFValue.valueBoolPointer,
             AccelByteSessionTemplateServerTypeP2P, AccelByteSessionTemplateServerTypeDS,
             AccelByteSessionTemplateDsSourceAms, AccelByteSessionTemplateDsSourceCustom,
             AccelByteSessionTemplateServerTypeNone, AccelByteSessionTemplateDsSourceNone] <;>
           cases b1 <;> cases b2 <;> cases b3 <;> cases b4 <;> cases b5 <;> cases b6 <;> decide)

/-- Round-trip over the match ruleset codec: decoding the encoded payload
restores every field except the JSON blob, which is restored as the
`json.Marshal` re-serialization of its parsed value. -/
theorem ruleSet_roundtrip (x : AccelByteMatchRuleSetModel)
    (h : wfMatchRuleSetModel x = true)
    (req : APIRuleSetPayload)
    (hreq : toApiMatchRuleSet x = some req) :
    updateFromApiMatchRuleSet x req =
      some { x with configuration := TFValue.value (jsonMarshal req.data) } := by
  obtain ⟨ns, nm, id, ecmf, cfg⟩ := x
  simp only [wfMatchRuleSetModel, Bool.and_eq_true] at h
  obtain ⟨hecmf, hcfg⟩ := h
  rcases ecmf with _ | _ | ecmf <;> simp_all [TFValue.isKnown]
  rcases cfg with _ | _ | cfg <;> simp_all [TFValue.isKnown]
  rcases hj : jsonParse cfg with _ | j
  · simp [toApiMatchRuleSet, TFValue.valueString, hj] at hreq
  · simp [toApiMatchRuleSet, TFValue.valueString, TFValue.valueStringPointer,
      TFValue.valueBoolPointer, hj] at hreq
    subst hreq
    simp [updateFromApiMatchRuleSet]

/-- Replacing a field with its own value is the identity (match ruleset). -/
theorem ruleSet_set_configuration_self (x : AccelByteMatchRuleSetModel) (v : TFValue String)
    (h : x.configuration = v) : { x with configuration := v } = x := by
  cases x
  cases h
  rfl

/-- Replacing a field with its own value is the identity (session template). -/
theorem sessionTemplate_set_customAttributes_self (x : AccelByteSessionTemplateModel)
    (v : TFValue String) (h : x.customAttributes = v) : { x with customAttributes := v } = x := by
  cases x
  cases h
  rfl

/-- Claim C1 (counterexample): the round-trip law fails as stated.  A
match-ruleset declared state whose `configuration` text is valid JSON but not
in `json.Marshal`'s canonical form ("\x7b \x7d", an empty object with an
interior space) is schema-well-formed, yet feeding the encoded payload back
through the decoder rewrites the configuration to "\x7b\x7d" and so does not
restore every field of the original state. -/
theorem C1_counterexample :
    wfMatchRuleSetModel exampleRuleSetNoncanonical = true ∧
    (toApiMatchRuleSet exampleRuleSetNoncanonical).bind
        (updateFromApiMatchRuleSet exampleRuleSetNoncanonical) =
      some { exampleRuleSetNoncanonical with configuration := TFValue.value "\x7b\x7d" } ∧
    (toApiMatchRuleSet exampleRuleSetNoncanonical).bind
        (updateFromApiMatchRuleSet exampleRuleSetNoncanonical) ≠
      some exampleRuleSetNoncanonical := by
  refine ⟨by decide, by decide, by decide⟩

/-- Claim C1 (amended): the round trip restores every field exactly for the
MatchPool kind; for the MatchRuleSet and SessionTemplate kinds it restores
every field except the JSON-blob attribute, which is restored as the
`json.Marshal` re-serialization of its parsed value — and hence exactly
whenever the blob text is already canonically serialized. -/
theorem C1_amended :
    (∀ x : AccelByteMatchPoolModel, wfMatchPoolModel x = true →
      updateFromApiMatchPool x (toApiMatchPool x) = some x) ∧
    (∀ (x : AccelByteMatchRuleSetModel) (req : APIRuleSetPayload),
      wfMatchRuleSetModel x = true → toApiMatchRuleSet x = some req →
      updateFromApiMatchRuleSet x req =
        some { x with configuration := TFValue.value (jsonMarshal req.data) } ∧
      (x.configuration = TFValue.value (jsonMarshal req.data) →
        updateFromApiMatchRuleSet x req = some x)) ∧
    (∀ (x : AccelByteSessionTemplateModel) (req : ApimodelsCreateConfigurationTemplateRequest),
      wfSessionTemplateModel x = true → toApiSessionTemplate x = some req →
      updateFromApiSessionTemplate x (createRequestToResponse req) =
        some { x with customAttributes := TFValue.value (jsonMarshal req.attributes) } ∧
      (x.customAttributes = TFValue.value (jsonMarshal req.attributes) →
        updateFromApiSessionTemplate x (createRequestToResponse req) = some x)) := by
  refine ⟨matchPool_roundtrip, fun x req hwf hreq => ?_, fun x req hwf hreq => ?_⟩
  · have hmain := ruleSet_roundtrip x hwf req hreq
    exact ⟨hmain, fun hc => by
      rw [hmain, ruleSet_set_configuration_self x _ hc]⟩
  · have hmain := sessionTemplate_roundtrip x hwf req hreq
    exact ⟨hmain, fun hc => by
      rw [hmain, sessionTemplate_set_customAttributes_self x _ hc]⟩

/-- Claim C2: for every well-formed session-template declared state (at most
one server-provider variant populated), `toApiSessionTemplate` derives the
discriminator pair as specified: p2p populated yields (type "P2P", source ""),
ams populated yields (type "DS", source "AMS") with the three claim-key/region
lists copied in order, custom populated yields (type "DS", source "custom")
with the callback URL and app name copied, and none populated yields
(type "NONE", source "") with all provider-specific fields at their zero
values. -/
theorem C2 (x : AccelByteSessionTemplateModel) (req : ApimodelsCreateConfigurationTemplateRequest)
    (hwf : wfSessionTemplateModel x = true) (hreq : toApiSessionTemplate x = some req) :
    (x.p2pServer.isKnown = true →
      req.type_ = some AccelByteSessionTemplateServerTypeP2P ∧
      req.dsSource = AccelByteSessionTemplateDsSourceNone) ∧
    (x.amsServer.isKnown = true →
      req.type_ = some AccelByteSessionTemplateServerTypeDS ∧
      req.dsSource = AccelByteSessionTemplateDsSourceAms ∧
      req.requestedRegions = some (x.amsServer.objectAs zeroAmsServerModel).requestedRegions.elements ∧
      req.preferredClaimKeys = some (x.amsServer.objectAs zeroAmsServerModel).preferredClaimKeys.elements ∧
      req.fallbackClaimKeys = some (x.amsServer.objectAs zeroAmsServerModel).fallbackClaimKeys.elements) ∧
    (x.customServer.isKnown = true →
      req.type_ = some AccelByteSessionTemplateServerTypeDS ∧
      req.dsSource = AccelByteSessionTemplateDsSourceCustom ∧
      req.customURLGRPC = (x.customServer.objectAs zeroCustomServerModel).customUrl.valueString ∧
      req.appName = (x.customServer.objectAs zeroCustomServerModel).extendApp.valueString) ∧
    (x.p2pServer.isKnown = false → x.amsServer.isKnown = false → x.customServer.isKnown = false →
      req.type_ = some AccelByteSessionTemplateServerTypeNone ∧
      req.dsSource = AccelByteSessionTemplateDsSourceNone ∧
      req.requestedRegions = none ∧ req.preferredClaimKeys = none ∧ req.fallbackClaimKeys = none ∧
      req.customURLGRPC = "" ∧ req.appName = "") := by
  obtain ⟨ns, nm, id, mnp, mxp, jn, mas, csf, it, iat, legp, p2p, ams, cst,
    ajs, cr, sv, gc, iss, msr, ttsl, als, ca⟩ := x
  rcases hj : jsonParse ca.valueString with _ | j
  · simp [toApiSessionTemplate, hj] at hreq
  · simp only [wfSessionTemplateModel, Bool.and_eq_true, Bool.or_eq_true, decide_eq_true_eq] at hwf
    obtain ⟨h, hca⟩ := hwf
    obtain ⟨h, hals⟩ := h
    obtain ⟨h, httsl⟩ := h
    obtain ⟨h, hmsr⟩ := h
    obtain ⟨h, hiss⟩ := h
    obtain ⟨h, hgc⟩ := h
    obtain ⟨h, hsv⟩ := h
    obtain ⟨h, hcr⟩ := h
    obtain ⟨h, hajs⟩ := h
    obtain ⟨h, hone⟩ := h
    obtain ⟨h, hcst⟩ := h
    obtain ⟨h, hams⟩ := h
    obtain ⟨h, hp2p⟩ := h
    simp [toApiSessionTemplate, resolveServerFields, hj] at hreq
    subst hreq
    rcases p2p with _ | _ | ⟨⟩ <;> rcases ams with _ | _ | amsm <;> rcases cst with _ | _ | cstm <;>
      simp_all [TFValue.isNull, TFValue.isKnown, TFValue.isUnknown, TFValue.objectAs,
        AccelByteSessionTemplateServerTypeP2P, AccelByteSessionTemplateServerTypeDS,
        AccelByteSessionTemplateDsSourceAms, AccelByteSessionTemplateDsSourceCustom,
        AccelByteSessionTemplateServerTypeNone, AccelByteSessionTemplateDsSourceNone]

/-- Claim C3: after `updateFromApiSessionTemplate` succeeds, at most one of
the three variant objects is non-null — exactly the one selected by the
response's discriminator pair (type "P2P"; type "DS" with source "AMS"; type
"DS" with source "custom") — and when the type tag matches no recognized
combination all three variants are null. -/
theorem C3 (prior : AccelByteSessionTemplateModel)
    (resp : ApimodelsConfigurationTemplateResponse)
    (d : AccelByteSessionTemplateModel)
    (h : updateFromApiSessionTemplate prior resp = some d) :
    ((if d.p2pServer.isKnown then (1 : Nat) else 0) +
      (if d.amsServer.isKnown then (1 : Nat) else 0) +
      (if d.customServer.isKnown then (1 : Nat) else 0) ≤ 1) ∧
    (resp.type_ = some AccelByteSessionTemplateServerTypeP2P →
      d.p2pServer = TFValue.value {} ∧ d.amsServer = TFValue.null ∧ d.customServer = TFValue.null) ∧
    (resp.type_ = some AccelByteSessionTemplateServerTypeDS →
      resp.dsSource = AccelByteSessionTemplateDsSourceAms →
      d.p2pServer = TFValue.null ∧
      d.amsServer = TFValue.value
        { requestedRegions := listValueFrom resp.requestedRegions
          preferredClaimKeys := listValueFrom resp.preferredClaimKeys
          fallbackClaimKeys := listValueFrom resp.fallbackClaimKeys } ∧
      d.customServer = TFValue.null) ∧
    (resp.type_ = some AccelByteSessionTemplateServerTypeDS →
      resp.dsSource = AccelByteSessionTemplateDsSourceCustom →
      d.p2pServer = TFValue.null ∧
      d.amsServer = TFValue.null ∧
      d.customServer = TFValue.value
        { customUrl := TFValue.value resp.customURLGRPC
          extendApp := TFValue.value resp.appName }) ∧
    (∀ t, resp.type_ = some t →
      t ≠ AccelByteSessionTemplateServerTypeP2P →
      ¬(t = AccelByteSessionTemplateServerTypeDS ∧ resp.dsSource = AccelByteSessionTemplateDsSourceAms) →
      ¬(t = AccelByteSessionTemplateServerTypeDS ∧ resp.dsSource = AccelByteSessionTemplateDsSourceCustom) →
      d.p2pServer = TFValue.null ∧ d.amsServer = TFValue.null ∧ d.customServer = TFValue.null) := by
  obtain ⟨mnp, mxp, jn, mas, gsc, it, iat, legp, ty, dss, rr, pck, fck, cug, an,
    aj, tc, es, dcg, ims, dmr, ttl, alv, at0⟩ := resp
  rcases mnp with _ | mnp
  · simp [updateFromApiSessionTemplate] at h
  rcases mxp with _ | mxp
  · simp [updateFromApiSessionTemplate] at h
  rcases jn with _ | jn
  · simp [updateFromApiSessionTemplate] at h
  rcases it with _ | it
  · simp [updateFromApiSessionTemplate] at h
  rcases iat with _ | iat
  · simp [updateFromApiSessionTemplate] at h
  rcases ty with _ | ty
  · simp [updateFromApiSessionTemplate] at h
  rcases tc with _ | tc
  · simp [updateFromApiSessionTemplate] at h
  simp only [updateFromApiSessionTemplate, Option.some.injEq] at h
  subst h
  by_cases hp : ty = "P2P"
  · subst hp
    simp [AccelByteSessionTemplateServerTypeP2P, AccelByteSessionTemplateServerTypeDS,
      TFValue.isKnown]
  · by_cases hds : ty = "DS"
    · subst hds
      by_cases hams : dss = "AMS"
      · subst hams
        simp [AccelByteSessionTemplateServerTypeP2P, AccelByteSessionTemplateServerTypeDS,
          AccelByteSessionTemplateDsSourceAms, AccelByteSessionTemplateDsSourceCustom,
          TFValue.isKnown]
      · by_cases hcst : dss = "custom"
        · subst hcst
          simp [AccelByteSessionTemplateServerTypeP2P, AccelByteSessionTemplateServerTypeDS,
            AccelByteSessionTemplateDsSourceAms, AccelByteSessionTemplateDsSourceCustom,
            TFValue.isKnown, hams]
        · simp [AccelByteSessionTemplateServerTypeP2P, AccelByteSessionTemplateServerTypeDS,
            AccelByteSessionTemplateDsSourceAms, AccelByteSessionTemplateDsSourceCustom,
            TFValue.isKnown, hams, hcst]
    · simp [AccelByteSessionTemplateServerTypeP2P, AccelByteSessionTemplateServerTypeDS,
        AccelByteSessionTemplateDsSourceAms, AccelByteSessionTemplateDsSourceCustom,
        TFValue.isKnown, hp, hds]

/-- Claim C4: the custom-session-function flag codec maps each of the six
booleans to its own bit (1, 2, 4, 8, 16, 32 in order), so the encoded
bit-field is the sum of the set bits; a record with only `on_party_created`
encodes to 8; decoding a response bit-field of 8 yields exactly
`on_party_created` with the other five flags false; and decoding an encoded
flag set restores every flag. -/
theorem C4 :
    (∀ b1 b2 b3 b4 b5 b6 : Bool, ∀ cu ea : String,
      (toModelsExtendConfiguration (TFValue.value
        { onSessionCreated := TFValue.value b1
          onSessionUpdated := TFValue.value b2
          onSessionDeleted := TFValue.value b3
          onPartyCreated := TFValue.value b4
          onPartyUpdated := TFValue.value b5
          onPartyDeleted := TFValue.value b6
          customUrl := TFValue.value cu
          extendApp := TFValue.value ea })).functionFlag =
      some ((if b1 then 1 else 0) + (if b2 then 2 else 0) + (if b3 then 4 else 0) +
        (if b4 then 8 else 0) + (if b5 then 16 else 0) + (if b6 then 32 else 0))) ∧
    (∀ cu ea : String,
      (toModelsExtendConfiguration (TFValue.value
        { onSessionCreated := TFValue.value false
          onSessionUpdated := TFValue.value false
          onSessionDeleted := TFValue.value false
          onPartyCreated := TFValue.value true
          onPartyUpdated := TFValue.value false
          onPartyDeleted := TFValue.value false
          customUrl := TFValue.value cu
          extendApp := TFValue.value ea })).functionFlag = some 8) ∧
    (∀ (prior d : AccelByteSessionTemplateModel)
        (resp : ApimodelsConfigurationTemplateResponse) (cfg : ModelsExtendConfiguration),
      resp.grpcSessionConfig = some cfg → cfg.functionFlag = some 8 →
      updateFromApiSessionTemplate prior resp = some d →
      d.customSessionFunction = TFValue.value
        { onSessionCreated := TFValue.value false
          onSessionUpdated := TFValue.value false
          onSessionDeleted := TFValue.value false
          onPartyCreated := TFValue.value true
          onPartyUpdated := TFValue.value false
          onPartyDeleted := TFValue.value false
          customUrl := TFValue.value cfg.customURL
          extendApp := TFValue.value cfg.appName }) ∧
    (∀ b1 b2 b3 b4 b5 b6 : Bool, ∀ cu ea : String,
      ∀ (prior d : AccelByteSessionTemplateModel)
        (resp : ApimodelsConfigurationTemplateResponse),
      resp.grpcSessionConfig = some (toModelsExtendConfiguration (TFValue.value
        { onSessionCreated := TFValue.value b1
          onSessionUpdated := TFValue.value b2
          onSessionDeleted := TFValue.value b3
          onPartyCreated := TFValue.value b4
          onPartyUpdated := TFValue.value b5
          onPartyDeleted := TFValue.value b6
          customUrl := TFValue.value cu
          extendApp := TFValue.value ea })) →
      updateFromApiSessionTemplate prior resp = some d →
      d.customSessionFunction = TFValue.value
        { onSessionCreated := TFValue.value b1
          onSessionUpdated := TFValue.value b2
          onSessionDeleted := TFValue.value b3
          onPartyCreated := TFValue.value b4
          onPartyUpdated := TFValue.value b5
          onPartyDeleted := TFValue.value b6
          customUrl := TFValue.value cu
          extendApp := TFValue.value ea }) := by
  refine ⟨?_, ?_, ?_, ?_⟩
  · intro b1 b2 b3 b4 b5 b6 cu ea
    cases b1 <;> cases b2 <;> cases b3 <;> cases b4 <;> cases b5 <;> cases b6 <;>
      simp [toModelsExtendConfiguration, TFValue.objectAs, TFValue.valueBool, TFValue.valueString]
  · intro cu ea
    simp [toModelsExtendConfiguration, TFValue.objectAs, TFValue.valueBool, TFValue.valueString]
  · intro prior d resp cfg hcfg hflag h
    obtain ⟨mnp, mxp, jn, mas, gsc, it, iat, legp, ty, dss, rr, pck, fck, cug, an,
      aj, tc, es, dcg, ims, dmr, ttl, alv, at0⟩ := resp
    rcases mnp with _ | mnp
    · simp [updateFromApiSessionTemplate] at h
    rcases mxp with _ | mxp
    · simp [updateFromApiSessionTemplate] at h
    rcases jn with _ | jn
    · simp [updateFromApiSessionTemplate] at h
    rcases it with _ | it
    · simp [updateFromApiSessionTemplate] at h
    rcases iat with _ | iat
    · simp [updateFromApiSessionTemplate] at h
    rcases ty with _ | ty
    · simp [updateFromApiSessionTemplate] at h
    rcases tc with _ | tc
    · simp [updateFromApiSessionTemplate] at h
    obtain ⟨cURL, aName, ff⟩ := cfg
    simp only at hflag
    subst hflag
    subst hcfg
    simp only [updateFromApiSessionTemplate, Option.some.injEq] at h
    subst h
    simp
    decide
  · intro b1 b2 b3 b4 b5 b6 cu ea prior d resp hcfg h
    obtain ⟨mnp, mxp, jn, mas, gsc, it, iat, legp, ty, dss, rr, pck, fck, cug, an,
      aj, tc, es, dcg, ims, dmr, ttl, alv, at0⟩ := resp
    rcases mnp with _ | mnp
    · simp [updateFromApiSessionTemplate] at h
    rcases mxp with _ | mxp
    · simp [updateFromApiSessionTemplate] at h
    rcases jn with _ | jn
    · simp [updateFromApiSessionTemplate] at h
    rcases it with _ | it
    · simp [updateFromApiSessionTemplate] at h
    rcases iat with _ | iat
    · simp [updateFromApiSessionTemplate] at h
    rcases ty with _ | ty
    · simp [updateFromApiSessionTemplate] at h
    rcases tc with _ | tc
    · simp [updateFromApiSessionTemplate] at h
    subst hcfg
    simp only [updateFromApiSessionTemplate, Option.some.injEq] at h
    subst h
    simp [toModelsExtendConfiguration, TFValue.objectAs, TFValue.valueBool, TFValue.valueString] <;>
      cases b1 <;> cases b2 <;> cases b3 <;> cases b4 <;> cases b5 <;> cases b6 <;> decide

/-- Claim C5: for all three resource kinds, a Read whose detail-fetch fails
with the kind's not-found classification removes the resource from tracked
state and reports no error, any other Read failure reports an error and keeps
the prior state, while an Update whose remote call fails with a typed
not-found error reports the classified "Resource not found" error and leaves
the tracked state unmodified (as does any other Update failure, with its own
error). -/
theorem C5 :
    (∀ (prior : AccelByteMatchPoolModel) (e : GoError),
      strContains e.message "error 404:" = true →
      matchPoolRead prior (Except.error e) =
        { finalState := none, errors := [], crashed := false,
          trace := [Effect.apiCall ApiCall.matchPoolDetails] }) ∧
    (∀ (prior : AccelByteMatchPoolModel) (e : GoError),
      strContains e.message "error 404:" = false →
      matchPoolRead prior (Except.error e) =
        { finalState := some prior,
          errors := ["Error when reading match pool via AccelByte API"],
          crashed := false, trace := [Effect.apiCall ApiCall.matchPoolDetails] }) ∧
    (∀ (prior plan : AccelByteMatchPoolModel) (e : GoError),
      e.isNotFoundType = true →
      matchPoolUpdate prior plan (Except.error e) =
        { finalState := some prior, errors := ["Resource not found"], crashed := false,
          trace := [Effect.apiCall ApiCall.updateMatchPool] }) ∧
    (∀ (prior plan : AccelByteMatchPoolModel) (e : GoError),
      e.isNotFoundType = false →
      matchPoolUpdate prior plan (Except.error e) =
        { finalState := some prior,
          errors := ["Error when updating match pool via AccelByte API"],
          crashed := false, trace := [Effect.apiCall ApiCall.updateMatchPool] }) ∧
    (∀ (prior : AccelByteMatchRuleSetModel) (e : GoError),
      strContains e.message "error 404:" = true →
      ruleSetRead prior (Except.error e) =
        { finalState := none, errors := [], crashed := false,
          trace := [Effect.apiCall ApiCall.ruleSetDetails] }) ∧
    (∀ (prior : AccelByteMatchRuleSetModel) (e : GoError),
      strContains e.message "error 404:" = false →
      ruleSetRead prior (Except.error e) =
        { finalState := some prior,
          errors := ["Error when reading match ruleset via AccelByte API"],
          crashed := false, trace := [Effect.apiCall ApiCall.ruleSetDetails] }) ∧
    (∀ (prior plan : AccelByteMatchRuleSetModel) (e : GoError) (req : APIRuleSetPayload),
      toApiMatchRuleSet plan = some req →
      e.isNotFoundType = true →
      ruleSetUpdate prior plan (Except.error e) =
        { finalState := some prior, errors := ["Resource not found"], crashed := false,
          trace := [Effect.apiCall ApiCall.updateRuleSet] }) ∧
    (∀ (prior plan : AccelByteMatchRuleSetModel) (e : GoError) (req : APIRuleSetPayload),
      toApiMatchRuleSet plan = some req →
      e.isNotFoundType = false →
      ruleSetUpdate prior plan (Except.error e) =
        { finalState := some prior,
          errors := ["Error when updating match ruleset via AccelByte API"],
          crashed := false, trace := [Effect.apiCall ApiCall.updateRuleSet] }) ∧
    (∀ (prior : AccelByteSessionTemplateModel) (e : GoError),
      e.isNotFoundType = true →
      sessionTemplateRead prior (Except.error e) =
        { finalState := none, errors := [], crashed := false,
          trace := [Effect.apiCall ApiCall.getConfigTemplate] }) ∧
    (∀ (prior : AccelByteSessionTemplateModel) (e : GoError),
      e.isNotFoundType = false →
      sessionTemplateRead prior (Except.error e) =
        { finalState := some prior,
          errors := ["Error when reading session template via AccelByte API"],
          crashed := false, trace := [Effect.apiCall ApiCall.getConfigTemplate] }) ∧
    (∀ (prior plan : AccelByteSessionTemplateModel) (e : GoError)
        (req : ApimodelsUpdateConfigurationTemplateRequest),
      toApiSessionTemplateConfig plan = some req →
      e.isNotFoundType = true →
      sessionTemplateUpdate prior plan (Except.error e) =
        { finalState := some prior, errors := ["Resource not found"], crashed := false,
          trace := [Effect.apiCall ApiCall.updateConfigTemplate] }) ∧
    (∀ (prior plan : AccelByteSessionTemplateModel) (e : GoError)
        (req : ApimodelsUpdateConfigurationTemplateRequest),
      toApiSessionTemplateConfig plan = some req →
      e.isNotFoundType = false →
      sessionTemplateUpdate prior plan (Except.error e) =
        { finalState := some prior,
          errors := ["Error when updating session template via AccelByte API"],
          crashed := false, trace := [Effect.apiCall ApiCall.updateConfigTemplate] }) := by
  refine ⟨fun prior e h => ?_, fun prior e h => ?_, fun prior plan e h => ?_,
    fun prior plan e h => ?_, fun prior e h => ?_, fun prior e h => ?_,
    fun prior plan e req hq h => ?_, fun prior plan e req hq h => ?_,
    fun prior e h => ?_, fun prior e h => ?_,
    fun prior plan e req hq h => ?_, fun prior plan e req hq h => ?_⟩ <;>
    simp [matchPoolRead, matchPoolUpdate, ruleSetRead, ruleSetUpdate,
      sessionTemplateRead, sessionTemplateUpdate, h]
  · simp [hq]
  · simp [hq, h]
  · simp [hq]
  · simp [hq, h]

/-- Claim C6 (counterexample): for SessionTemplate's
`custom_session_function` the claimed present-but-empty reconciliation does
not hold — with a declared state whose custom-session-function is populated
and an API response with no `GrpcSessionConfig`, the decoder stores null. -/
theorem C6_counterexample :
    exampleSessionTemplateCsf.customSessionFunction.isKnown = true ∧
    exampleRespNoCfg.grpcSessionConfig = none ∧
    (updateFromApiSessionTemplate exampleSessionTemplateCsf exampleRespNoCfg).map
        (fun d => d.customSessionFunction) = some TFValue.null := by
  refine ⟨by decide, by decide, by decide⟩

/-- Claim C6 (amended): the absence-reconciliation behaviour holds for
MatchPool's `match_function_override` (absent in both plan and API decodes to
null; populated in the plan but absent in the API decodes to a
present-but-empty object with empty-string and null-list sub-attributes),
but for SessionTemplate's `custom_session_function` the decoder stores null
whenever the API response carries no `GrpcSessionConfig`, regardless of the
prior declared state. -/
theorem C6_amended :
    (∀ (x : AccelByteMatchPoolModel) (pool : APIMatchPool) (d : AccelByteMatchPoolModel),
      x.matchFunctionOverride = TFValue.null → pool.matchFunctionOverride = none →
      updateFromApiMatchPool x pool = some d →
      d.matchFunctionOverride = TFValue.null) ∧
    (∀ (x : AccelByteMatchPoolModel) (pool : APIMatchPool) (d : AccelByteMatchPoolModel),
      x.matchFunctionOverride.isKnown = true → pool.matchFunctionOverride = none →
      updateFromApiMatchPool x pool = some d →
      d.matchFunctionOverride = TFValue.value
        { backfillMatches := TFValue.value ""
          enrichment := TFValue.null
          makeMatches := TFValue.value ""
          statCodes := TFValue.null
          validation := TFValue.null }) ∧
    (∀ (x : AccelByteSessionTemplateModel) (resp : ApimodelsConfigurationTemplateResponse)
        (d : AccelByteSessionTemplateModel),
      resp.grpcSessionConfig = none →
      updateFromApiSessionTemplate x resp = some d →
      d.customSessionFunction = TFValue.null) := by
  refine ⟨?_, ?_, ?_⟩
  · intro x pool d hplan hapi h
    obtain ⟨pn, prs, pst, pte, pbl, pab, pbp, pbt, pmf, pmfo, pcd, ppg⟩ := pool
    simp only at hapi
    subst hapi
    rcases prs with _ | prs
    · simp [updateFromApiMatchPool] at h
    rcases pst with _ | pst
    · simp [updateFromApiMatchPool] at h
    rcases pte with _ | pte
    · simp [updateFromApiMatchPool] at h
    rcases pab with _ | pab
    · simp [updateFromApiMatchPool] at h
    rcases pbp with _ | pbp
    · simp [updateFromApiMatchPool] at h
    rcases pbt with _ | pbt
    · simp [updateFromApiMatchPool] at h
    rcases pmf with _ | pmf
    · simp [updateFromApiMatchPool] at h
    simp only [updateFromApiMatchPool, Option.some.injEq] at h
    subst h
    simp [hplan, TFValue.isNull, TFValue.isUnknown]
  · intro x pool d hplan hapi h
    obtain ⟨pn, prs, pst, pte, pbl, pab, pbp, pbt, pmf, pmfo, pcd, ppg⟩ := pool
    simp only at hapi
    subst hapi
    rcases prs with _ | prs
    · simp [updateFromApiMatchPool] at h
    rcases pst with _ | pst
    · simp [updateFromApiMatchPool] at h
    rcases pte with _ | pte
    · simp [updateFromApiMatchPool] at h
    rcases pab with _ | pab
    · simp [updateFromApiMatchPool] at h
    rcases pbp with _ | pbp
    · simp [updateFromApiMatchPool] at h
    rcases pbt with _ | pbt
    · simp [updateFromApiMatchPool] at h
    rcases pmf with _ | pmf
    · simp [updateFromApiMatchPool] at h
    rcases hk : x.matchFunctionOverride with _ | _ | mfo <;> simp [hk, TFValue.isKnown] at hplan
    simp only [updateFromApiMatchPool, Option.some.injEq, hk] at h
    subst h
    simp [TFValue.isNull, TFValue.isUnknown]
  · intro x resp d hapi h
    obtain ⟨mnp, mxp, jn, mas, gsc, it, iat, legp, ty, dss, rr, pck, fck, cug, an,
      aj, tc, es, dcg, ims, dmr, ttl, alv, at0⟩ := resp
    simp only at hapi
    subst hapi
    rcases mnp with _ | mnp
    · simp [updateFromApiSessionTemplate] at h
    rcases mxp with _ | mxp
    · simp [updateFromApiSessionTemplate] at h
    rcases jn with _ | jn
    · simp [updateFromApiSessionTemplate] at h
    rcases it with _ | it
    · simp [updateFromApiSessionTemplate] at h
    rcases iat with _ | iat
    · simp [updateFromApiSessionTemplate] at h
    rcases ty with _ | ty
    · simp [updateFromApiSessionTemplate] at h
    rcases tc with _ | tc
    · simp [updateFromApiSessionTemplate] at h
    simp only [updateFromApiSessionTemplate, Option.some.injEq] at h
    subst h
    simp

/-- Claim C7 (counterexample): the nil-list policy does not extend to the
SessionTemplate ams_server lists — decoding an AMS response whose
`RequestedRegions` slice is nil stores a null (not empty) list, while an
empty non-nil slice (`PreferredClaimKeys`) stores an empty list. -/
theorem C7_counterexample :
    exampleRespAmsNil.requestedRegions = none ∧
    (updateFromApiSessionTemplate exampleSessionTemplateCsf exampleRespAmsNil).map
        (fun d => (d.amsServer.objectAs zeroAmsServerModel).requestedRegions) =
      some TFValue.null ∧
    (updateFromApiSessionTemplate exampleSessionTemplateCsf exampleRespAmsNil).map
        (fun d => (d.amsServer.objectAs zeroAmsServerModel).preferredClaimKeys) =
      some (TFValue.value []) ∧
    TFValue.null ≠ (TFValue.value ([] : List String)) := by
  refine ⟨by decide, by decide, by decide, by decide⟩

/-- Claim C7 (amended): `listValueFromEvenIfNil` maps a nil slice to an
empty list and preserves order otherwise, so MatchPool's
match-function-override lists decode nil slices to empty lists and decoding
is idempotent; but SessionTemplate's ams_server lists go through
`types.ListValueFrom`, which maps a nil slice to a null list — consecutive
decodes of the same response still produce identical declared states. -/
theorem C7_amended :
    (listValueFromEvenIfNil none = TFValue.value [] ∧
      ∀ l : List String, listValueFromEvenIfNil (some l) = TFValue.value l) ∧
    (∀ (x : AccelByteMatchPoolModel) (pool : APIMatchPool)
        (mfo : APIMatchFunctionOverride) (d : AccelByteMatchPoolModel),
      pool.matchFunctionOverride = some mfo →
      mfo.enrichment = none → mfo.statCodes = none → mfo.validation = none →
      updateFromApiMatchPool x pool = some d →
      d.matchFunctionOverride = TFValue.value
        { backfillMatches := TFValue.value mfo.backfillMatches
          enrichment := TFValue.value []
          makeMatches := TFValue.value mfo.makeMatches
          statCodes := TFValue.value []
          validation := TFValue.value [] }) ∧
    (∀ (x : AccelByteMatchPoolModel) (pool : APIMatchPool) (d : AccelByteMatchPoolModel),
      updateFromApiMatchPool x pool = some d →
      updateFromApiMatchPool d pool = some d) ∧
    (∀ (x : AccelByteSessionTemplateModel) (resp : ApimodelsConfigurationTemplateResponse)
        (d : AccelByteSessionTemplateModel),
      resp.type_ = some AccelByteSessionTemplateServerTypeDS →
      resp.dsSource = AccelByteSessionTemplateDsSourceAms →
      updateFromApiSessionTemplate x resp = some d →
      d.amsServer = TFValue.value
        { requestedRegions := listValueFrom resp.requestedRegions
          preferredClaimKeys := listValueFrom resp.preferredClaimKeys
          fallbackClaimKeys := listValueFrom resp.fallbackClaimKeys } ∧
      (resp.requestedRegions = none →
        (d.amsServer.objectAs zeroAmsServerModel).requestedRegions = TFValue.null)) ∧
    (∀ (x : AccelByteSessionTemplateModel) (resp : ApimodelsConfigurationTemplateResponse)
        (d : AccelByteSessionTemplateModel),
      updateFromApiSessionTemplate x resp = some d →
      updateFromApiSessionTemplate d resp = some d) := by
  refine ⟨⟨rfl, fun l => rfl⟩, ?_, ?_, ?_, ?_⟩
  · intro x pool mfo d hmfo he hs hv h
    obtain ⟨pn, prs, pst, pte, pbl, pab, pbp, pbt, pmf, pmfo, pcd, ppg⟩ := pool
    simp only at hmfo
    subst hmfo
    rcases prs with _ | prs
    · simp [updateFromApiMatchPool] at h
    rcases pst with _ | pst
    · simp [updateFromApiMatchPool] at h
    rcases pte with _ | pte
    · simp [updateFromApiMatchPool] at h
    rcases pab with _ | pab
    · simp [updateFromApiMatchPool] at h
    rcases pbp with _ | pbp
    · simp [updateFromApiMatchPool] at h
    rcases pbt with _ | pbt
    · simp [updateFromApiMatchPool] at h
    rcases pmf with _ | pmf
    · simp [updateFromApiMatchPool] at h
    simp only [updateFromApiMatchPool, Option.some.injEq] at h
    subst h
    simp [he, hs, hv, listValueFromEvenIfNil, TFValue.isNull, TFValue.isUnknown]
  · intro x pool d h
    obtain ⟨pn, prs, pst, pte, pbl, pab, pbp, pbt, pmf, pmfo, pcd, ppg⟩ := pool
    rcases prs with _ | prs
    · simp [updateFromApiMatchPool] at h
    rcases pst with _ | pst
    · simp [updateFromApiMatchPool] at h
    rcases pte with _ | pte
    · simp [updateFromApiMatchPool] at h
    rcases pab with _ | pab
    · simp [updateFromApiMatchPool] at h
    rcases pbp with _ | pbp
    · simp [updateFromApiMatchPool] at h
    rcases pbt with _ | pbt
    · simp [updateFromApiMatchPool] at h
    rcases pmf with _ | pmf
    · simp [updateFromApiMatchPool] at h
    simp only [updateFromApiMatchPool, Option.some.injEq] at h
    subst h
    rcases pmfo with _ | mfo
    · rcases hx : x.matchFunctionOverride with _ | _ | xm <;>
        simp [hx, TFValue.isNull, TFValue.isUnknown, updateFromApiMatchPool]
    · rcases hx : x.matchFunctionOverride with _ | _ | xm <;>
        simp [hx, TFValue.isNull, TFValue.isUnknown, updateFromApiMatchPool]
  · intro x resp d hty hds h
    obtain ⟨mnp, mxp, jn, mas, gsc, it, iat, legp, ty, dss, rr, pck, fck, cug, an,
      aj, tc, es, dcg, ims, dmr, ttl, alv, at0⟩ := resp
    simp only at hty hds
    subst hds
    rcases mnp with _ | mnp
    · simp [updateFromApiSessionTemplate] at h
    rcases mxp with _ | mxp
    · simp [updateFromApiSessionTemplate] at h
    rcases jn with _ | jn
    · simp [updateFromApiSessionTemplate] at h
    rcases it with _ | it
    · simp [updateFromApiSessionTemplate] at h
    rcases iat with _ | iat
    · simp [updateFromApiSessionTemplate] at h
    rcases ty with _ | ty
    · simp [updateFromApiSessionTemplate] at h
    rcases tc with _ | tc
    · simp [updateFromApiSessionTemplate] at h
    simp only [Option.some.injEq] at hty
    subst hty
    simp only [updateFromApiSessionTemplate, Option.some.injEq] at h
    subst h
    constructor
    · simp [AccelByteSessionTemplateServerTypeP2P, AccelByteSessionTemplateServerTypeDS,
        AccelByteSessionTemplateDsSourceAms]
    · intro hrr
      subst hrr
      simp [AccelByteSessionTemplateServerTypeP2P, AccelByteSessionTemplateServerTypeDS,
        AccelByteSessionTemplateDsSourceAms, TFValue.objectAs, listValueFrom]
  · intro x resp d h
    obtain ⟨mnp, mxp, jn, mas, gsc, it, iat, legp, ty, dss, rr, pck, fck, cug, an,
      aj, tc, es, dcg, ims, dmr, ttl, alv, at0⟩ := resp
    rcases mnp with _ | mnp
    · simp [updateFromApiSessionTemplate] at h
    rcases mxp with _ | mxp
    · simp [updateFromApiSessionTemplate] at h
    rcases jn with _ | jn
    · simp [updateFromApiSessionTemplate] at h
    rcases it with _ | it
    · simp [updateFromApiSessionTemplate] at h
    rcases iat with _ | iat
    · simp [updateFromApiSessionTemplate] at h
    rcases ty with _ | ty
    · simp [updateFromApiSessionTemplate] at h
    rcases tc with _ | tc
    · simp [updateFromApiSessionTemplate] at h
    simp only [updateFromApiSessionTemplate, Option.some.injEq] at h
    subst h
    simp [updateFromApiSessionTemplate]

/-- Claim C8: encoding a JSON-blob attribute fails exactly when the text is
not syntactically valid JSON (relative to the embedded grammar of Go
`encoding/json`): the ruleset and session-template encoders return no request
on a parse failure and return a request embedding the parsed value on
success, and on the error path the calling Create/Update operation writes no
state and makes no API call. -/
theorem C8 :
    (∀ x : AccelByteMatchRuleSetModel,
      (jsonParse x.configuration.valueString = none → toApiMatchRuleSet x = none) ∧
      (∀ j, jsonParse x.configuration.valueString = some j →
        toApiMatchRuleSet x = some
          { name := x.name.valueStringPointer
            enableCustomMatchFunction := x.enableCustomMatchFunction.valueBoolPointer
            data := j })) ∧
    (∀ x : AccelByteSessionTemplateModel,
      (jsonParse x.customAttributes.valueString = none →
        toApiSessionTemplate x = none ∧ toApiSessionTemplateConfig x = none) ∧
      (∀ j, jsonParse x.customAttributes.valueString = some j →
        (toApiSessionTemplate x).map (fun r => r.attributes) = some j ∧
        (toApiSessionTemplateConfig x).map (fun r => r.attributes) = some j)) ∧
    (∀ (plan : AccelByteMatchRuleSetModel) (cr : Option GoError)
        (dr : Except GoError APIRuleSetPayload),
      jsonParse plan.configuration.valueString = none →
      ruleSetCreate plan cr dr =
        { finalState := none
          errors := ["Error when converting our internal state to an AccelByte API match ruleset"]
          crashed := false
          trace := [] }) ∧
    (∀ (prior plan : AccelByteMatchRuleSetModel) (ur : Except GoError APIRuleSetPayload),
      jsonParse plan.configuration.valueString = none →
      ruleSetUpdate prior plan ur =
        { finalState := some prior
          errors := ["Error when converting our internal state to an AccelByte API match ruleset"]
          crashed := false
          trace := [] }) ∧
    (∀ (plan : AccelByteSessionTemplateModel)
        (cr : Except GoError ApimodelsConfigurationTemplateResponse),
      jsonParse plan.customAttributes.valueString = none →
      sessionTemplateCreate plan cr =
        { finalState := none
          errors := ["Error when converting our internal state to an AccelByte API session template"]
          crashed := false
          trace := [] }) ∧
    (∀ (prior plan : AccelByteSessionTemplateModel)
        (ur : Except GoError ApimodelsConfigurationTemplateResponse),
      jsonParse plan.customAttributes.valueString = none →
      sessionTemplateUpdate prior plan ur =
        { finalState := some prior
          errors := ["Error when converting our internal state to an AccelByte API session template config"]
          crashed := false
          trace := [] }) := by
  refine ⟨?_, ?_, ?_, ?_, ?_, ?_⟩
  · intro x
    constructor
    · intro hp
      simp [toApiMatchRuleSet, hp]
    · intro j hp
      simp [toApiMatchRuleSet, hp]
  · intro x
    constructor
    · intro hp
      simp [toApiSessionTemplate, toApiSessionTemplateConfig, hp]
    · intro j hp
      simp [toApiSessionTemplate, toApiSessionTemplateConfig, hp]
  · intro plan cr dr hp
    obtain ⟨ns, nm, id, ecmf, cfg⟩ := plan
    simp only [TFValue.valueString] at hp
    simp [ruleSetCreate, toApiMatchRuleSet, hp, TFValue.valueString]
  · intro prior plan ur hp
    obtain ⟨ns, nm, id, ecmf, cfg⟩ := plan
    simp only [TFValue.valueString] at hp
    simp [ruleSetUpdate, toApiMatchRuleSet, hp, TFValue.valueString]
  · intro plan cr hp
    obtain ⟨ns, nm, id, mnp, mxp, jn, mas, csf, it, iat, legp, p2p, ams, cst,
      ajs, chr, sv, gc, iss, msr, ttsl, als, ca⟩ := plan
    simp only [TFValue.valueString] at hp
    simp [sessionTemplateCreate, toApiSessionTemplate, hp, TFValue.valueString]
  · intro prior plan ur hp
    obtain ⟨ns, nm, id, mnp, mxp, jn, mas, csf, it, iat, legp, p2p, ams, cst,
      ajs, chr, sv, gc, iss, msr, ttsl, als, ca⟩ := plan
    simp only [TFValue.valueString] at hp
    simp [sessionTemplateUpdate, toApiSessionTemplateConfig, hp, TFValue.valueString]

/-- Claim C9: the MatchPool resource's Create performs a single unconditional
fixed 20-second sleep after a successful create call and before the follow-up
detail-fetch, and its Delete performs the same sleep after a successful
delete call before returning; no sleep happens on the failure paths, and no
operation of the other two resource kinds ever sleeps. -/
theorem C9 :
    CACHE_INVALIDATION_DELAY_SECONDS = 20 ∧
    (∀ (plan : AccelByteMatchPoolModel) (dr : Except GoError APIMatchPool),
      (matchPoolCreate plan none dr).trace =
        [Effect.apiCall ApiCall.createMatchPool, Effect.sleep 20,
          Effect.apiCall ApiCall.matchPoolDetails]) ∧
    (∀ (plan : AccelByteMatchPoolModel) (e : GoError) (dr : Except GoError APIMatchPool),
      (matchPoolCreate plan (some e) dr).trace = [Effect.apiCall ApiCall.createMatchPool]) ∧
    (∀ prior : AccelByteMatchPoolModel,
      (matchPoolDelete prior none).trace =
        [Effect.apiCall ApiCall.deleteMatchPool, Effect.sleep 20]) ∧
    (∀ (prior : AccelByteMatchPoolModel) (e : GoError),
      (matchPoolDelete prior (some e)).trace = [Effect.apiCall ApiCall.deleteMatchPool]) ∧
    (∀ (plan : AccelByteMatchPoolModel) (dr : Except GoError APIMatchPool),
      ((matchPoolCreate plan none dr).trace.countP (fun eff => eff.isSleep)) = 1) ∧
    (∀ prior : AccelByteMatchPoolModel,
      ((matchPoolDelete prior none).trace.countP (fun eff => eff.isSleep)) = 1) ∧
    (∀ (plan : AccelByteMatchRuleSetModel) (cr : Option GoError)
        (dr : Except GoError APIRuleSetPayload),
      ((ruleSetCreate plan cr dr).trace.all (fun eff => !eff.isSleep)) = true) ∧
    (∀ (prior : AccelByteMatchRuleSetModel) (dr : Except GoError APIRuleSetPayload),
      ((ruleSetRead prior dr).trace.all (fun eff => !eff.isSleep)) = true) ∧
    (∀ (prior plan : AccelByteMatchRuleSetModel) (ur : Except GoError APIRuleSetPayload),
      ((ruleSetUpdate prior plan ur).trace.all (fun eff => !eff.isSleep)) = true) ∧
    (∀ (prior : AccelByteMatchRuleSetModel) (del : Option GoError),
      ((ruleSetDelete prior del).trace.all (fun eff => !eff.isSleep)) = true) ∧
    (∀ (plan : AccelByteSessionTemplateModel)
        (cr : Except GoError ApimodelsConfigurationTemplateResponse),
      ((sessionTemplateCreate plan cr).trace.all (fun eff => !eff.isSleep)) = true) ∧
    (∀ (prior : AccelByteSessionTemplateModel)
        (gr : Except GoError ApimodelsConfigurationTemplateResponse),
      ((sessionTemplateRead prior gr).trace.all (fun eff => !eff.isSleep)) = true) ∧
    (∀ (prior plan : AccelByteSessionTemplateModel)
        (ur : Except GoError ApimodelsConfigurationTemplateResponse),
      ((sessionTemplateUpdate prior plan ur).trace.all (fun eff => !eff.isSleep)) = true) ∧
    (∀ (prior : AccelByteSessionTemplateModel) (del : Option GoError),
      ((sessionTemplateDelete prior del).trace.all (fun eff => !eff.isSleep)) = true) := by
  refine ⟨rfl, ?_, ?_, ?_, ?_, ?_, ?_, ?_, ?_, ?_, ?_, ?_, ?_, ?_, ?_⟩ <;>
    intros <;>
    simp only [matchPoolCreate, matchPoolDelete, ruleSetCreate, ruleSetRead, ruleSetUpdate,
      ruleSetDelete, sessionTemplateCreate, sessionTemplateRead, sessionTemplateUpdate,
      sessionTemplateDelete] <;>
    repeat' split
  all_goals rfl

/-- Claim C10: when the at-most-one precondition is violated,
`toApiSessionTemplate` silently resolves the conflict by fixed precedence —
custom overrides AMS, which overrides P2P — while a populated ams_server
always contributes its region/claim-key lists to the request, so a state with
both ams_server and custom_server populated encodes to (type "DS", source
"custom") while still carrying the AMS lists. -/
theorem C10 (x : AccelByteSessionTemplateModel)
    (req : ApimodelsCreateConfigurationTemplateRequest)
    (hreq : toApiSessionTemplate x = some req) :
    ((!x.customServer.isNull && !x.customServer.isUnknown) = true →
      req.type_ = some AccelByteSessionTemplateServerTypeDS ∧
      req.dsSource = AccelByteSessionTemplateDsSourceCustom ∧
      req.customURLGRPC = (x.customServer.objectAs zeroCustomServerModel).customUrl.valueString ∧
      req.appName = (x.customServer.objectAs zeroCustomServerModel).extendApp.valueString) ∧
    ((!x.amsServer.isNull && !x.amsServer.isUnknown) = true →
      req.requestedRegions = some (x.amsServer.objectAs zeroAmsServerModel).requestedRegions.elements ∧
      req.preferredClaimKeys = some (x.amsServer.objectAs zeroAmsServerModel).preferredClaimKeys.elements ∧
      req.fallbackClaimKeys = some (x.amsServer.objectAs zeroAmsServerModel).fallbackClaimKeys.elements) ∧
    ((!x.customServer.isNull && !x.customServer.isUnknown) = false →
      (!x.amsServer.isNull && !x.amsServer.isUnknown) = true →
      req.type_ = some AccelByteSessionTemplateServerTypeDS ∧
      req.dsSource = AccelByteSessionTemplateDsSourceAms) ∧
    ((!x.customServer.isNull && !x.customServer.isUnknown) = false →
      (!x.amsServer.isNull && !x.amsServer.isUnknown) = false →
      (!x.p2pServer.isNull && !x.p2pServer.isUnknown) = true →
      req.type_ = some AccelByteSessionTemplateServerTypeP2P ∧
      req.dsSource = AccelByteSessionTemplateDsSourceNone) ∧
    ((!x.customServer.isNull && !x.customServer.isUnknown) = false →
      (!x.amsServer.isNull && !x.amsServer.isUnknown) = false →
      (!x.p2pServer.isNull && !x.p2pServer.isUnknown) = false →
      req.type_ = some AccelByteSessionTemplateServerTypeNone ∧
      req.dsSource = AccelByteSessionTemplateDsSourceNone) := by
  rcases hj : jsonParse x.customAttributes.valueString with _ | j
  · simp [toApiSessionTemplate, hj] at hreq
  · simp [toApiSessionTemplate, resolveServerFields, hj] at hreq
    subst hreq
    refine ⟨fun hc => ?_, fun ha => ?_, fun hc ha => ?_, fun hc ha hp => ?_, fun hc ha hp => ?_⟩
    · simp only [Bool.and_eq_true, Bool.not_eq_true'] at hc
      simp [hc]
    · simp only [Bool.and_eq_true, Bool.not_eq_true'] at ha
      simp [ha]
    · simp only [Bool.and_eq_true, Bool.not_eq_true'] at ha
      have hc' : ¬(x.customServer.isNull = false ∧ x.customServer.isUnknown = false) := by
        rintro ⟨h1, h2⟩
        rw [h1, h2] at hc
        simp at hc
      simp [hc', ha]
    · simp only [Bool.and_eq_true, Bool.not_eq_true'] at hp
      have hc' : ¬(x.customServer.isNull = false ∧ x.customServer.isUnknown = false) := by
        rintro ⟨h1, h2⟩
        rw [h1, h2] at hc
        simp at hc
      have ha' : ¬(x.amsServer.isNull = false ∧ x.amsServer.isUnknown = false) := by
        rintro ⟨h1, h2⟩
        rw [h1, h2] at ha
        simp at ha
      simp [hc', ha', hp]
    · have hc' : ¬(x.customServer.isNull = false ∧ x.customServer.isUnknown = false) := by
        rintro ⟨h1, h2⟩
        rw [h1, h2] at hc
        simp at hc
      have ha' : ¬(x.amsServer.isNull = false ∧ x.amsServer.isUnknown = false) := by
        rintro ⟨h1, h2⟩
        rw [h1, h2] at ha
        simp at ha
      have hp' : ¬(x.p2pServer.isNull = false ∧ x.p2pServer.isUnknown = false) := by
        rintro ⟨h1, h2⟩
        rw [h1, h2] at hp
        simp at hp
      simp [hc', ha', hp']

/-- Claim C1 witness: the amended round-trip law at concrete states of all
     three kinds. -/
theorem C1_witness :
    updateFromApiMatchPool exampleMatchPool (toApiMatchPool exampleMatchPool) =
      some exampleMatchPool ∧
    updateFromApiMatchRuleSet exampleRuleSetCanonical exampleReqRuleSet =
      some exampleRuleSetCanonical ∧
    updateFromApiSessionTemplate exampleStAms (createRequestToResponse exampleReqAms) =
      some exampleStAms :=
  ⟨C1_amended.1 exampleMatchPool (by decide),
   (C1_amended.2.1 exampleRuleSetCanonical exampleReqRuleSet (by decide) (by rfl)).2 (by rfl),
   (C1_amended.2.2 exampleStAms exampleReqAms (by decide) (by rfl)).2 (by rfl)⟩

/-- Claim C2 witness: the spec's AMS scenario — only ams_server populated
     with two requested regions encodes to the (DS, AMS) pair. -/
theorem C2_witness :
    exampleReqAms.type_ = some "DS" ∧
    exampleReqAms.dsSource = "AMS" ∧
    exampleReqAms.requestedRegions = some ["eu-central-1", "us-west-2"] :=
  have h := C2 exampleStAms exampleReqAms (by decide) (by rfl)
  have ha := h.2.1 (by decide)
  ⟨ha.1, ha.2.1, ha.2.2.1⟩

/-- Claim C3 witness: decoding a type-"NONE" response leaves all three
     variants null. -/
theorem C3_witness :
    exampleStDecoded.p2pServer = TFValue.null ∧
    exampleStDecoded.amsServer = TFValue.null ∧
    exampleStDecoded.customServer = TFValue.null :=
  (C3 exampleSessionTemplateCsf exampleRespNoCfg exampleStDecoded
    (by decide)).2.2.2.2 "NONE" (by rfl) (by decide) (by decide) (by decide)

/-- Claim C4 witness: decoding a bit-field of 8 yields exactly
     on_party_created. -/
theorem C4_witness :
    exampleSessionTemplateCsf.customSessionFunction = TFValue.value exampleCsfModel :=
  (C4.2.2.1 exampleSessionTemplateCsf exampleSessionTemplateCsf exampleRespCsf8
    { customURL := "https://example.com", appName := "", functionFlag := some 8 }
    (by rfl) (by rfl) (by decide))

/-- Claim C5 witness: concrete not-found and other-failure outcomes for
     Read and Update across the three kinds. -/
theorem C5_witness :
    matchPoolRead exampleMatchPool (Except.error example404Error) =
      { finalState := none, errors := [], crashed := false,
        trace := [Effect.apiCall ApiCall.matchPoolDetails] } ∧
    matchPoolUpdate exampleMatchPool exampleMatchPool (Except.error exampleNotFoundError) =
      { finalState := some exampleMatchPool, errors := ["Resource not found"], crashed := false,
        trace := [Effect.apiCall ApiCall.updateMatchPool] } ∧
    ruleSetRead exampleRuleSetCanonical (Except.error example404Error) =
      { finalState := none, errors := [], crashed := false,
        trace := [Effect.apiCall ApiCall.ruleSetDetails] } ∧
    ruleSetUpdate exampleRuleSetCanonical exampleRuleSetCanonical
        (Except.error exampleNotFoundError) =
      { finalState := some exampleRuleSetCanonical, errors := ["Resource not found"],
        crashed := false, trace := [Effect.apiCall ApiCall.updateRuleSet] } ∧
    sessionTemplateRead exampleStAms (Except.error exampleNotFoundError) =
      { finalState := none, errors := [], crashed := false,
        trace := [Effect.apiCall ApiCall.getConfigTemplate] } ∧
    sessionTemplateRead exampleStAms (Except.error exampleOtherError) =
      { finalState := some exampleStAms,
        errors := ["Error when reading session template via AccelByte API"], crashed := false,
        trace := [Effect.apiCall ApiCall.getConfigTemplate] } :=
  ⟨C5.1 exampleMatchPool example404Error (by decide),
   C5.2.2.1 exampleMatchPool exampleMatchPool exampleNotFoundError (by decide),
   C5.2.2.2.2.1 exampleRuleSetCanonical example404Error (by decide),
   C5.2.2.2.2.2.2.1 exampleRuleSetCanonical exampleRuleSetCanonical exampleNotFoundError
     exampleReqRuleSet (by rfl) (by decide),
   C5.2.2.2.2.2.2.2.2.1 exampleStAms exampleNotFoundError (by decide),
   C5.2.2.2.2.2.2.2.2.2.1 exampleStAms exampleOtherError (by decide)⟩

/-- Claim C6 witness: the amended reconciliation at concrete states. -/
theorem C6_amended_witness :
    exampleMatchPoolNoMfo.matchFunctionOverride = TFValue.null ∧
    exampleMatchPoolEmptyMfo.matchFunctionOverride = TFValue.value
      { backfillMatches := TFValue.value ""
        enrichment := TFValue.null
        makeMatches := TFValue.value ""
        statCodes := TFValue.null
        validation := TFValue.null } ∧
    exampleStDecoded.customSessionFunction = TFValue.null :=
  ⟨C6_amended.1 exampleMatchPoolNoMfo (toApiMatchPool exampleMatchPoolNoMfo)
     exampleMatchPoolNoMfo (by decide) (by decide) (by decide),
   C6_amended.2.1 exampleMatchPool (toApiMatchPool exampleMatchPoolNoMfo)
     exampleMatchPoolEmptyMfo (by decide) (by decide) (by decide),
   C6_amended.2.2 exampleSessionTemplateCsf exampleRespNoCfg exampleStDecoded
     (by decide) (by decide)⟩

/-- Claim C7 witness: the amended list policy and idempotence at concrete
     states. -/
theorem C7_amended_witness :
    exampleStAmsNilDecoded.amsServer = TFValue.value
      { requestedRegions := TFValue.null
        preferredClaimKeys := TFValue.value []
        fallbackClaimKeys := TFValue.null } ∧
    updateFromApiSessionTemplate exampleStAmsNilDecoded exampleRespAmsNil =
      some exampleStAmsNilDecoded ∧
    updateFromApiMatchPool exampleMatchPool (toApiMatchPool exampleMatchPool) =
      some exampleMatchPool :=
  ⟨((C7_amended.2.2.2.1 exampleSessionTemplateCsf exampleRespAmsNil exampleStAmsNilDecoded
      (by rfl) (by rfl) (by decide)).1),
   C7_amended.2.2.2.2 exampleSessionTemplateCsf exampleRespAmsNil exampleStAmsNilDecoded
     (by decide),
   C7_amended.2.2.1 exampleMatchPool (toApiMatchPool exampleMatchPool) exampleMatchPool
     (by decide)⟩

/-- Claim C8 witness: a non-JSON blob fails to encode and aborts Create
     before any API call; a valid blob encodes to the parsed value. -/
theorem C8_witness :
    toApiMatchRuleSet exampleRuleSetBadJson = none ∧
    ruleSetCreate exampleRuleSetBadJson none (Except.error exampleOtherError) =
      { finalState := none
        errors := ["Error when converting our internal state to an AccelByte API match ruleset"]
        crashed := false
        trace := [] } ∧
    sessionTemplateCreate exampleStBadJson (Except.error exampleOtherError) =
      { finalState := none
        errors := ["Error when converting our internal state to an AccelByte API session template"]
        crashed := false
        trace := [] } ∧
    toApiMatchRuleSet exampleRuleSetCanonical = some exampleReqRuleSet :=
  ⟨(C8.1 exampleRuleSetBadJson).1 (by rfl),
   C8.2.2.1 exampleRuleSetBadJson none (Except.error exampleOtherError) (by rfl),
   C8.2.2.2.2.1 exampleStBadJson (Except.error exampleOtherError) (by rfl),
   (C8.1 exampleRuleSetCanonical).2 (Json.obj []) (by rfl)⟩

/-- Claim C10 witness: with both ams_server and custom_server populated the
     encoded pair is (DS, custom) and the AMS regions are still carried. -/
theorem C10_witness :
    exampleReqBoth.type_ = some "DS" ∧
    exampleReqBoth.dsSource = "custom" ∧
    exampleReqBoth.requestedRegions = some ["eu-central-1", "us-west-2"] :=
  have h := C10 exampleStBoth exampleReqBoth (by rfl)
  have hc := h.1 (by decide)
  have ha := h.2.1 (by decide)
  ⟨hc.1, hc.2.1, ha.1⟩
